import Mathlib

/-!
The recommendation handler of `main.go` (movie-api).

A shallow embedding of `fetchFromOMDb`, `getMoviePool` and `recommendMoviesHandler`.
Everything the Go standard library or the network supplies (the HTTP transport, the
Unicode tables behind `strings.ToLower` / `strings.EqualFold` / `strings.TrimSpace`,
`url.QueryEscape`, `fmt.Errorf`, `fmt.Sscanf` with the verb `%f`, `sort.Slice`) is a
field of `Env`; the handler code itself is translated statement by statement.
-/

namespace MovieApi

set_option linter.dupNamespace false

/-! ## Data model -/

/-- The Go struct `Movie`: the decoded upstream record. -/
structure Movie where
  Title : String
  Year : String
  Plot : String
  Country : String
  Awards : String
  Director : String
  Genre : String
  Actors : String
  IMDBRating : String
  IMDBID : String
  TotalSeasons : String
  Response : String
  Error : String
deriving DecidableEq, Repr

/-- The Go struct `Recommendation`: one item of a bucket. -/
structure Recommendation where
  Title : String
  Year : String
  IMDBRating : String
  Plot : String
  Reason : String
deriving DecidableEq, Repr

/-- The Go struct `EpisodeBrief`: one episode of a season listing. -/
structure EpisodeBrief where
  Title : String
  Released : String
  Episode : String
  IMDBRating : String
  IMDBID : String
deriving DecidableEq, Repr

/-- The Go struct `Season`: the decoded season listing. -/
structure Season where
  Title : String
  Season : String
  Total : String
  Episodes : List EpisodeBrief
  Response : String
  Error : String
deriving DecidableEq, Repr

/-- The values a Go `float64` can hold, as far as `>` can tell them apart: not-a-number,
the two infinities, and the finite values (each finite float is a rational; the two
zeros compare equal). -/
inductive F64 where
  | nan
  | negInf
  | fin (q : ℚ)
  | posInf
deriving DecidableEq

/-- Go's `x > y` on `float64`: false as soon as one side is NaN. -/
def F64.gt : F64 → F64 → Bool
  | .nan, _ => false
  | _, .nan => false
  | .posInf, .posInf => false
  | .posInf, _ => true
  | _, .posInf => false
  | .negInf, _ => false
  | .fin _, .negInf => true
  | .fin a, .fin b => decide (b < a)

/-- Go's `x >= y` on `float64`: false as soon as one side is NaN. -/
def F64.ge : F64 → F64 → Bool
  | .nan, _ => false
  | _, .nan => false
  | .posInf, _ => true
  | _, .negInf => true
  | .negInf, _ => false
  | .fin _, .posInf => false
  | .fin a, .fin b => decide (b ≤ a)

/-- What `http.Get` followed by `json.NewDecoder(resp.Body).Decode` can yield. -/
inductive HttpReply (α : Type) where
  | callFailed
  | undecodable
  | decoded (v : α)

/-- The world outside `main.go`: configuration, the upstream service and the Go library
functions the handlers call. -/
structure Env where
  /-- The package variable `apiKey`. -/
  apiKey : String
  /-- The upstream: `http.Get(url)` and the JSON decoding of its body into a `Movie`. -/
  httpGet : String → HttpReply Movie
  /-- The upstream again, its body decoded into a `Season`. -/
  httpGetSeason : String → HttpReply Season
  /-- The message of `fmt.Errorf(format)` called with a format string and no operand. -/
  errorf : String → String
  /-- The library function `url.QueryEscape`. -/
  queryEscape : String → String
  /-- The rune map `unicode.ToLower`. -/
  toLower : Char → Char
  /-- Whether two different runes are in the same `unicode.SimpleFold` orbit. -/
  simpleFoldEq : Char → Char → Bool
  /-- The rune test `unicode.IsSpace`. -/
  isSpace : Char → Bool
  /-- The call `fmt.Sscanf(s, "%f", &r)`: the value stored in `r`, or `none` when the scan
  fails before storing anything. -/
  sscanFloat : String → Option F64
  /-- The library function `sort.Slice`, as a function from the slice before to the slice
  after, given `less` on elements. -/
  sortSlice : (Recommendation → Recommendation → Bool) → List Recommendation →
    List Recommendation

/-! ## The `strings` functions used by the handler -/

/-- Go's `strings.ToLower`: every rune mapped through `unicode.ToLower`. -/
def ToLower (E : Env) (s : String) : String :=
  String.mk (s.data.map E.toLower)

/-- Rune-by-rune comparison of `strings.EqualFold`. -/
def equalFoldChars (E : Env) : List Char → List Char → Bool
  | [], [] => true
  | a :: as, b :: bs => (a == b || E.simpleFoldEq a b) && equalFoldChars E as bs
  | _, _ => false

/-- Go's `strings.EqualFold`. -/
def EqualFold (E : Env) (s t : String) : Bool :=
  equalFoldChars E s.data t.data

/-- Substring search on runes. -/
def containsChars : List Char → List Char → Bool
  | [], sub => sub.isEmpty
  | c :: cs, sub => sub.isPrefixOf (c :: cs) || containsChars cs sub

/-- Go's `strings.Contains`. -/
def Contains (s substr : String) : Bool :=
  containsChars s.data substr.data

/-- Go's `strings.TrimSpace`: leading and trailing white space removed. -/
def TrimSpace (E : Env) (s : String) : String :=
  String.mk ((s.data.dropWhile E.isSpace).reverse.dropWhile E.isSpace).reverse

/-- Scanner of `strings.Split(s, ", ")`: `acc` holds the current piece reversed. -/
def splitCommaSpace : List Char → List Char → List String
  | [], acc => [String.mk acc.reverse]
  | ',' :: ' ' :: rest, acc => String.mk acc.reverse :: splitCommaSpace rest []
  | c :: cs, acc => splitCommaSpace cs (c :: acc)

/-- Go's `strings.Split(s, ", ")`. -/
def Split (s : String) : List String :=
  splitCommaSpace s.data []

/-! ## Upstream client -/

/-- The Go function `fetchFromOMDb`. -/
def fetchFromOMDb (E : Env) (query : String) : Except String Movie :=
  match E.httpGet ("http://www.omdbapi.com/?" ++ query ++ "&apikey=" ++ E.apiKey) with
  | .callFailed => .error "failed to call OMDb API"
  | .undecodable => .error "failed to decode OMDb response"
  | .decoded movie =>
    if movie.Response = "False" then .error (E.errorf movie.Error) else .ok movie

/-- The Go function `getMoviePool`. -/
def getMoviePool : List String :=
  ["The Shawshank Redemption", "The Godfather", "The Dark Knight", "The Godfather Part II",
   "Pulp Fiction", "Fight Club", "Forrest Gump", "The Lord of the Rings: The Return of the King",
   "The Matrix", "Goodfellas", "Inglourious Basterds", "Interstellar", "The Green Mile",
   "Gladiator", "The Departed", "The Prestige", "Whiplash", "Django Unchained",
   "The Lion King", "Avengers: Endgame", "Memento", "Shutter Island",
   "The Social Network", "Tenet", "Dunkirk", "Catch Me If You Can",
   "Blood Diamond", "The Revenant", "The Wolf of Wall Street", "Titanic",
   "Saving Private Ryan", "Se7en", "The Silence of the Lambs", "The Usual Suspects",
   "Braveheart", "American Beauty", "A Beautiful Mind", "Black Swan",
   "Parasite", "La La Land", "The Big Short", "12 Years a Slave",
   "The Imitation Game", "The Theory of Everything", "No Country for Old Men",
   "There Will Be Blood", "Birdman", "Her", "The Grand Budapest Hotel",
   "Spotlight", "Argo", "The Hurt Locker", "Slumdog Millionaire",
   "Million Dollar Baby", "Mystic River", "The Pianist", "The Truman Show",
   "Eternal Sunshine of the Spotless Mind", "The Sixth Sense", "A Few Good Men",
   "Cast Away", "Apollo 13", "Rain Man", "The Color of Money",
   "Once Upon a Time in Hollywood", "The Irishman", "Marriage Story",
   "Moneyball", "Ocean's Eleven", "Ocean's Twelve", "Ocean's Thirteen",
   "Heat", "Collateral", "Minority Report", "War of the Worlds",
   "Edge of Tomorrow", "Oblivion", "Top Gun: Maverick", "Jerry Maguire",
   "Magnolia", "Boogie Nights", "The Fighter", "American Hustle",
   "Silver Linings Playbook", "Joy", "Unforgiven", "Gran Torino",
   "The Mule", "The Bridges of Madison County", "Batman Begins",
   "The Dark Knight Rises", "Man of Steel", "Justice League",
   "Wonder Woman", "Aquaman", "Black Panther", "Doctor Strange",
   "Iron Man", "Iron Man 2", "Iron Man 3", "Captain America: Civil War",
   "Thor: Ragnarok", "Guardians of the Galaxy", "Guardians of the Galaxy Vol. 2"]

/-! ## `recommendMoviesHandler` -/

/-- State of one population loop: the bucket being filled and the map `seenAll`
(the list of keys set to `true`). -/
abbrev LoopState := List Recommendation × List String

/-- The bucket item built from a candidate record and a reason. -/
def mkRecommendation (m : Movie) (reason : String) : Recommendation :=
  { Title := m.Title, Year := m.Year, IMDBRating := m.IMDBRating, Plot := m.Plot,
    Reason := reason }

/-- The common shape of the three `for _, t := range titles` loops. `guard` is what the
loop tests after `err == nil && !strings.EqualFold(m.Title, favMovie.Title)` in the same
condition; `reason` is the body after the `seenAll` test: the reason of the item it
appends, or `none` when it appends nothing. -/
def populate (E : Env) (favMovie : Movie) (guard : Movie → Bool)
    (reason : Movie → Option String) : List String → LoopState → LoopState
  | [], st => st
  | t :: ts, (recs, seenAll) =>
    if recs.length ≥ 15 then (recs, seenAll)
    else
      match fetchFromOMDb E ("t=" ++ E.queryEscape t) with
      | .error _ => populate E favMovie guard reason ts (recs, seenAll)
      | .ok m =>
        if (!EqualFold E m.Title favMovie.Title) && guard m then
          if m.Title ∈ seenAll then populate E favMovie guard reason ts (recs, seenAll)
          else
            match reason m with
            | some why =>
              populate E favMovie guard reason ts
                (recs ++ [mkRecommendation m why], m.Title :: seenAll)
            | none => populate E favMovie guard reason ts (recs, seenAll)
        else populate E favMovie guard reason ts (recs, seenAll)

/-- Inner loop of the genre bucket: the first `g` of `favGenres` contained in the
candidate's genre field, both lower-cased. -/
def genreReason (E : Env) (favGenres : List String) (m : Movie) : Option String :=
  (favGenres.find? (fun g => Contains (ToLower E m.Genre) (ToLower E g))).map
    (fun g => "Same genre: " ++ g)

/-- The `GENRE BASED` loop. -/
def genreLoop (E : Env) (favMovie : Movie) (titles : List String) (st : LoopState) :
    LoopState :=
  populate E favMovie (fun _ => true) (genreReason E (Split favMovie.Genre)) titles st

/-- Third conjunct of the condition of the director loop. -/
def directorGuard (E : Env) (favMovie m : Movie) : Bool :=
  EqualFold E (TrimSpace E m.Director) (TrimSpace E favMovie.Director)

/-- The `DIRECTOR BASED` loop. -/
def directorLoop (E : Env) (favMovie : Movie) (titles : List String) (st : LoopState) :
    LoopState :=
  populate E favMovie (directorGuard E favMovie)
    (fun _ => some ("Same director: " ++ favMovie.Director)) titles st

/-- Inner loop of the actor bucket: each actor is trimmed, then tested. -/
def actorReason (E : Env) (favActors : List String) (m : Movie) : Option String :=
  ((favActors.map (TrimSpace E)).find?
    (fun actor => Contains (ToLower E m.Actors) (ToLower E actor))).map
    (fun actor => "Shared actor: " ++ actor)

/-- The `ACTOR BASED` loop. -/
def actorLoop (E : Env) (favMovie : Movie) (titles : List String) (st : LoopState) :
    LoopState :=
  populate E favMovie (fun _ => true) (actorReason E (Split favMovie.Actors)) titles st

/-- The map `recommendations`, one field per key. -/
structure Buckets where
  genre_based : List Recommendation
  director_based : List Recommendation
  actor_based : List Recommendation
deriving DecidableEq, Repr

/-- The three population loops in source order, sharing `seenAll`. -/
def populateBuckets (E : Env) (titles : List String) (favMovie : Movie) : Buckets :=
  let g := genreLoop E favMovie titles ([], [])
  let d := directorLoop E favMovie titles ([], g.2)
  let a := actorLoop E favMovie titles ([], d.2)
  { genre_based := g.1, director_based := d.1, actor_based := a.1 }

/-- The value `fmt.Sscanf(text, "%f", &r)` leaves in a zero-initialised `r`. -/
def parseRating (E : Env) (text : String) : F64 :=
  (E.sscanFloat text).getD (F64.fin 0)

/-- Numeric rating of an item. -/
def rating (E : Env) (r : Recommendation) : F64 :=
  parseRating E r.IMDBRating

/-- The comparison closure given to `sort.Slice`: `ri > rj`. -/
def ratingLess (E : Env) (a b : Recommendation) : Bool :=
  F64.gt (rating E a) (rating E b)

/-- The closure `sortByRating`. -/
def sortByRating (E : Env) (movies : List Recommendation) : List Recommendation :=
  E.sortSlice (ratingLess E) movies

/-- One step of the loop `Trim each to 15 max`. -/
def trim15 (recs : List Recommendation) : List Recommendation :=
  if recs.length > 15 then recs.take 15 else recs

/-- Sort and trim of the three buckets. -/
def finishBuckets (E : Env) (b : Buckets) : Buckets :=
  { genre_based := trim15 (sortByRating E b.genre_based),
    director_based := trim15 (sortByRating E b.director_based),
    actor_based := trim15 (sortByRating E b.actor_based) }

/-- What the handler writes: `http.Error(w, body, status)` or the JSON envelope. -/
inductive RecommendResponse where
  | httpError (body : String) (status : Nat)
  | json (favorite_movie : String) (recommendations : Buckets)
deriving DecidableEq, Repr

/-- The handler body for a given candidate pool; `fav` is the value of the query
parameter `favorite_movie` (empty when absent). -/
def recommendWithPool (E : Env) (titles : List String) (fav : String) : RecommendResponse :=
  if fav = "" then .httpError "Missing favorite_movie query parameter" 400
  else
    match fetchFromOMDb E ("t=" ++ E.queryEscape fav) with
    | .error err => .httpError err 404
    | .ok favMovie =>
      .json favMovie.Title (finishBuckets E (populateBuckets E titles favMovie))

/-- The Go function `recommendMoviesHandler`. -/
def recommendMoviesHandler (E : Env) (fav : String) : RecommendResponse :=
  recommendWithPool E getMoviePool fav

/-! ## The other handlers -/

/-- What a handler writes: `http.Error(w, body, status)` or a JSON value. -/
inductive HandlerResponse (α : Type) where
  | httpError (body : String) (status : Nat)
  | json (value : α)
deriving DecidableEq, Repr

/-- The Go function `fetchSeasonFromOMDb`. -/
def fetchSeasonFromOMDb (E : Env) (query : String) : Except String Season :=
  match E.httpGetSeason ("http://www.omdbapi.com/?" ++ query ++ "&apikey=" ++ E.apiKey) with
  | .callFailed => .error "failed to call OMDb API"
  | .undecodable => .error "failed to decode OMDb response"
  | .decoded season =>
    if season.Response = "False" then .error (E.errorf season.Error) else .ok season

/-- The JSON object of `movieDetailsHandler`. -/
structure MovieDetails where
  Title : String
  Year : String
  Plot : String
  Country : String
  Awards : String
  Director : String
  Ratings : String
deriving DecidableEq, Repr

/-- The Go function `movieDetailsHandler`; `title` is the query parameter. -/
def movieDetailsHandler (E : Env) (title : String) : HandlerResponse MovieDetails :=
  if title = "" then .httpError "Missing title query parameter" 400
  else
    match fetchFromOMDb E ("t=" ++ E.queryEscape title) with
    | .error err => .httpError err 404
    | .ok movie =>
      .json { Title := movie.Title, Year := movie.Year, Plot := movie.Plot,
              Country := movie.Country, Awards := movie.Awards, Director := movie.Director,
              Ratings := movie.IMDBRating }

/-- The JSON object of `episodeDetailsHandler`. -/
structure EpisodeDetails where
  Series : String
  Season : String
  Episode : String
  Title : String
  Year : String
  Plot : String
  Director : String
deriving DecidableEq, Repr

/-- The Go function `episodeDetailsHandler`; the arguments are the query parameters
`series_title`, `season` and `episode_number`. -/
def episodeDetailsHandler (E : Env) (series season episode : String) :
    HandlerResponse EpisodeDetails :=
  if series = "" ∨ season = "" ∨ episode = "" then
    .httpError "Missing required query parameters" 400
  else
    match fetchFromOMDb E ("t=" ++ E.queryEscape series) with
    | .error err => .httpError ("Series not found: " ++ err) 404
    | .ok seriesData =>
      match fetchFromOMDb E ("i=" ++ seriesData.IMDBID ++ "&Season=" ++ E.queryEscape season ++
          "&Episode=" ++ E.queryEscape episode) with
      | .error err => .httpError ("Episode not found: " ++ err) 404
      | .ok episodeData =>
        .json { Series := seriesData.Title, Season := season, Episode := episode,
                Title := episodeData.Title, Year := episodeData.Year,
                Plot := episodeData.Plot, Director := episodeData.Director }

/-- The JSON object of `genreTopMoviesHandler`. -/
structure GenreTop where
  genre : String
  movies : List Recommendation
deriving DecidableEq, Repr

/-- The item `genreTopMoviesHandler` appends for the pool title `t`, if any. -/
def genreMatch (E : Env) (genre : String) (t : String) : Option Recommendation :=
  match fetchFromOMDb E ("t=" ++ E.queryEscape t) with
  | .error _ => none
  | .ok m =>
    if Contains (ToLower E m.Genre) (ToLower E genre) then
      some (mkRecommendation m ("Genre match: " ++ genre))
    else none

/-- The slice `matches` after the loop over the pool. -/
def genreMatches (E : Env) (titles : List String) (genre : String) : List Recommendation :=
  titles.filterMap (genreMatch E genre)

/-- The handler body of `genreTopMoviesHandler` for a given candidate pool. -/
def genreTopWithPool (E : Env) (titles : List String) (genre : String) :
    HandlerResponse GenreTop :=
  if genre = "" then .httpError "Missing genre query parameter" 400
  else if (genreMatches E titles genre).length = 0 then
    .httpError ("No movies found for genre " ++ genre) 404
  else
    .json { genre := genre, movies := trim15 (sortByRating E (genreMatches E titles genre)) }

/-- The Go function `genreTopMoviesHandler`. -/
def genreTopMoviesHandler (E : Env) (genre : String) : HandlerResponse GenreTop :=
  genreTopWithPool E getMoviePool genre

/-- The JSON object of `seriesDetailsHandler`. -/
structure SeriesDetails where
  Title : String
  Director : String
  Plot : String
  TotalSeasons : String
deriving DecidableEq, Repr

/-- The Go function `seriesDetailsHandler`; `series` is the query parameter `title`. -/
def seriesDetailsHandler (E : Env) (series : String) : HandlerResponse SeriesDetails :=
  if series = "" then .httpError "Missing title query parameter" 400
  else
    match fetchFromOMDb E ("t=" ++ E.queryEscape series ++ "&type=series") with
    | .error err => .httpError ("Series not found: " ++ err) 404
    | .ok seriesData =>
      .json { Title := seriesData.Title, Director := seriesData.Director,
              Plot := seriesData.Plot, TotalSeasons := seriesData.TotalSeasons }

/-- The Go struct `EpisodeFull` local to `seasonDetailsHandler`. -/
structure EpisodeFull where
  Title : String
  Released : String
  Episode : String
  IMDBRating : String
  IMDBID : String
  Plot : String
deriving DecidableEq, Repr

/-- Body of the loop over `seasonData.Episodes`: the element appended for `ep`. -/
def enrichEpisode (E : Env) (ep : EpisodeBrief) : EpisodeFull :=
  match fetchFromOMDb E ("i=" ++ ep.IMDBID) with
  | .ok details =>
    { Title := details.Title, Released := ep.Released, Episode := ep.Episode,
      IMDBRating := details.IMDBRating, IMDBID := ep.IMDBID, Plot := details.Plot }
  | .error _ =>
    { Title := ep.Title, Released := ep.Released, Episode := ep.Episode,
      IMDBRating := ep.IMDBRating, IMDBID := ep.IMDBID, Plot := "Plot not available" }

/-- The loop over `seasonData.Episodes`, appending to `enrichedEpisodes`. -/
def enrichEpisodes (E : Env) : List EpisodeBrief → List EpisodeFull → List EpisodeFull
  | [], enrichedEpisodes => enrichedEpisodes
  | ep :: rest, enrichedEpisodes =>
    enrichEpisodes E rest (enrichedEpisodes ++ [enrichEpisode E ep])

/-- The JSON object of `seasonDetailsHandler`. -/
structure SeasonDetails where
  Series : String
  Season : String
  Episodes : List EpisodeFull
deriving DecidableEq, Repr

/-- The Go function `seasonDetailsHandler`; the arguments are the query parameters
`series_title` and `season`. -/
def seasonDetailsHandler (E : Env) (series season : String) : HandlerResponse SeasonDetails :=
  if series = "" ∨ season = "" then .httpError "Missing required query parameters" 400
  else
    match fetchFromOMDb E ("t=" ++ E.queryEscape series ++ "&type=series") with
    | .error err => .httpError ("Series not found: " ++ err) 404
    | .ok seriesData =>
      match fetchSeasonFromOMDb E ("i=" ++ seriesData.IMDBID ++ "&Season=" ++ season) with
      | .error err => .httpError ("Season not found: " ++ err) 404
      | .ok seasonData =>
        .json { Series := seriesData.Title, Season := seasonData.Season,
                Episodes := enrichEpisodes E seasonData.Episodes [] }

/-! ## A concrete environment for evaluating the handler -/

/-- Insert `x` into a list before the first element it is less than. -/
def insertByLess {α : Type} (less : α → α → Bool) (x : α) : List α → List α
  | [] => [x]
  | y :: ys => if less x y then x :: y :: ys else y :: insertByLess less x ys

/-- Insertion sort, elements taken from left to right. -/
def insertionSortBy {α : Type} (less : α → α → Bool) (xs : List α) : List α :=
  xs.foldl (fun acc x => insertByLess less x acc) []

/-- The call `less(i, j)` of `sort.Slice` on the slice `data`. -/
def lessAt {α : Type} (less : α → α → Bool) (data : List α) (i j : Nat) : Bool :=
  match data[i]?, data[j]? with
  | some x, some y => less x y
  | _, _ => false

/-- The call `swap(i, j)` of `sort.Slice` on the slice `data`. -/
def swapAt {α : Type} (data : List α) (i j : Nat) : List α :=
  match data[i]?, data[j]? with
  | some x, some y => (data.set i y).set j x
  | _, _ => data

/-- Inner loop of `insertionSort_func`:
`for j := i; j > a && less(j, j-1); j-- { swap(j, j-1) }`, entered with `j`. -/
def insertionInner {α : Type} (less : α → α → Bool) (a : Nat) : Nat → List α → List α
  | 0, data => data
  | j + 1, data =>
    if j + 1 > a && lessAt less data (j + 1) j then
      insertionInner less a j (swapAt data (j + 1) j)
    else data

/-- The library function `insertionSort_func(data, a, b)`:
`for i := a + 1; i < b; i++` around the inner loop. -/
def insertionSort_func {α : Type} (less : α → α → Bool) (data : List α) (a b : Nat) :
    List α :=
  (List.range' (a + 1) (b - (a + 1))).foldl (fun d i => insertionInner less a i d) data

/-- The library function `order2_func`: the two indices in order, and the swap count. -/
def order2_func {α : Type} (less : α → α → Bool) (data : List α) (a b swaps : Nat) :
    Nat × Nat × Nat :=
  if lessAt less data b a then (b, a, swaps + 1) else (a, b, swaps)

/-- The library function `median_func`: the index of the median of three, and the swap
count. -/
def median_func {α : Type} (less : α → α → Bool) (data : List α) (a b c swaps : Nat) :
    Nat × Nat :=
  let r1 := order2_func less data a b swaps
  let r2 := order2_func less data r1.2.1 c r1.2.2
  let r3 := order2_func less data r1.1 r2.1 r2.2.2
  (r3.2.1, r3.2.2)

/-- The Go type `sortedHint`. -/
inductive sortedHint where
  | unknownHint
  | increasingHint
  | decreasingHint
deriving DecidableEq, Repr

/-- The library function `choosePivot_func(data, a, b)` for fewer than 50 elements
(`shortestNinther`): a static pivot below 8 elements, the median of three from 8 on. -/
def choosePivot_func {α : Type} (less : α → α → Bool) (data : List α) (a b : Nat) :
    Nat × sortedHint :=
  let l := b - a
  let i := a + l / 4 * 1
  let j := a + l / 4 * 2
  let k := a + l / 4 * 3
  let r := if l ≥ 8 then median_func less data i j k 0 else (j, 0)
  if r.2 = 0 then (r.1, sortedHint.increasingHint)
  else if r.2 = 12 then (r.1, sortedHint.decreasingHint)
  else (r.1, sortedHint.unknownHint)

/-- The library function `partialInsertionSort_func(data, a, b)` for fewer than 50
elements (`shortestShifting`), where it changes nothing: whether no element of
`data[a+1:b]` is less than the one before it. -/
def partialInsertionSort_func {α : Type} (less : α → α → Bool) (data : List α) (a b : Nat) :
    Bool :=
  (List.range' (a + 1) (b - (a + 1))).all (fun i => !lessAt less data i (i - 1))

/-- The loop `for i <= j && less(i, a) { i++ }` of `partition_func`; the first argument
bounds the number of steps. -/
def scanUp {α : Type} (less : α → α → Bool) (data : List α) (a j : Nat) : Nat → Nat → Nat
  | 0, i => i
  | steps + 1, i =>
    if i ≤ j && lessAt less data i a then scanUp less data a j steps (i + 1) else i

/-- The loop `for i <= j && !less(j, a) { j-- }` of `partition_func`, entered with `j`. -/
def scanDown {α : Type} (less : α → α → Bool) (data : List α) (a i : Nat) : Nat → Nat
  | 0 => 0
  | j + 1 => if i ≤ j + 1 && !lessAt less data (j + 1) a then scanDown less data a i j else j + 1

/-- The loop `for { ... }` of `partition_func`: scan up, scan down, stop when `i > j`,
else swap and step; the first argument bounds the number of rounds. -/
def partitionLoop {α : Type} (less : α → α → Bool) (a : Nat) :
    Nat → List α → Nat → Nat → List α × Nat
  | 0, data, _, j => (data, j)
  | rounds + 1, data, i, j =>
    let i1 := scanUp less data a j data.length i
    let j1 := scanDown less data a i1 j
    if i1 > j1 then (data, j1)
    else partitionLoop less a rounds (swapAt data i1 j1) (i1 + 1) (j1 - 1)

/-- The library function `partition_func(data, a, b, pivot)`: the slice after the
partition, the new index of the pivot, and whether the slice was already partitioned. -/
def partition_func {α : Type} (less : α → α → Bool) (data : List α) (a b pivot : Nat) :
    List α × Nat × Bool :=
  let d0 := swapAt data a pivot
  let i := scanUp less d0 a (b - 1) d0.length (a + 1)
  let j := scanDown less d0 a i (b - 1)
  if i > j then (swapAt d0 j a, j, true)
  else
    let r := partitionLoop less a d0.length (swapAt d0 i j) (i + 1) (j - 1)
    (swapAt r.1 r.2 a, r.2, false)

/-- The library function `sort.Slice` from Go 1.19 on, that is `pdqsort_func(data, 0, n,
bits.Len(n))`, for a slice of at most 13 elements. Up to 12 elements (`maxInsertion`) it
is insertion sort. At 13 elements the first round chooses a pivot, returns when the hint
is `increasingHint` and the slice is in order, and partitions otherwise; the two parts
have at most 12 elements together and are each sorted by insertion. The branches a slice
of 13 elements does not reach (heap sort at limit 0, `breakPatterns_func`,
`reverseRange_func`, `partitionEqual_func`) are left out, and a longer slice, which can
reach them, is sorted by `insertionSortBy` here. -/
def pdqsortSlice {α : Type} (less : α → α → Bool) (data : List α) : List α :=
  if data.length ≤ 12 then insertionSort_func less data 0 data.length
  else if data.length = 13 then
    let p := choosePivot_func less data 0 data.length
    if p.2 = sortedHint.increasingHint && partialInsertionSort_func less data 0 data.length
    then data
    else
      let r := partition_func less data 0 data.length p.1
      insertionSort_func less (insertionSort_func less r.1 0 r.2.1) (r.2.1 + 1) data.length
  else insertionSortBy less data

/-- A record with the given title, genre, director, actors and rating text. -/
def mkMovie (title genre director actors imdbRating : String) : Movie :=
  { Title := title, Year := "", Plot := "", Country := "", Awards := "",
    Director := director, Genre := genre, Actors := actors, IMDBRating := imdbRating,
    IMDBID := "", TotalSeasons := "", Response := "True", Error := "" }

/-- A scan of the rating texts used in the examples below: three decimals, the text
`NaN` (which `%f` scans to not-a-number) and `N/A` (which it cannot scan). -/
def sampleScan (s : String) : Option F64 :=
  if s = "NaN" then some F64.nan
  else if s = "9.0" then some (F64.fin 9)
  else if s = "8.5" then some (F64.fin (17 / 2))
  else if s = "7.0" then some (F64.fin 7)
  else none

/-- The title asked for by a request URL built by `fetchFromOMDb` in `sampleEnv`
(`http://www.omdbapi.com/?t=` is 26 characters, `&apikey=k` is 9). -/
def titleOfUrl (url : String) : String :=
  String.mk ((url.data.drop 26).reverse.drop 9).reverse

/-- An environment with ASCII case tables, identity escaping, a stable insertion sort
and an upstream that knows no title. -/
def sampleEnv : Env :=
  { apiKey := "k",
    httpGet := fun _ => HttpReply.callFailed,
    httpGetSeason := fun _ => HttpReply.callFailed,
    errorf := fun s => s,
    queryEscape := fun s => s,
    toLower := Char.toLower,
    simpleFoldEq := fun a b => a.toLower == b.toLower,
    isSpace := Char.isWhitespace,
    sscanFloat := sampleScan,
    sortSlice := insertionSortBy }

/-! ## The contract of `sort.Slice` -/

/-- The requirement `sort.Slice` puts on `less`, over the elements being sorted:
irreflexive, transitive, and with a transitive "neither is less" relation. -/
def StrictWeakOn {α : Type} (less : α → α → Bool) (xs : List α) : Prop :=
  (∀ a ∈ xs, less a a = false) ∧
  (∀ a ∈ xs, ∀ b ∈ xs, ∀ c ∈ xs, less a b = true → less b c = true → less a c = true) ∧
  (∀ a ∈ xs, ∀ b ∈ xs, ∀ c ∈ xs, less a b = false → less b c = false → less a c = false)

/-- What the documentation of `sort.Slice` promises: the slice is rearranged, never
changed otherwise; and when `less` meets the requirement, no later element is less than
an earlier one. Nothing is promised about elements that compare equal. -/
def SortSliceSpec (sortSlice : (Recommendation → Recommendation → Bool) →
    List Recommendation → List Recommendation) : Prop :=
  ∀ less xs, (sortSlice less xs).Perm xs ∧
    (StrictWeakOn less xs → (sortSlice less xs).Pairwise (fun a b => less b a = false))

/-! ## Properties stated by the claims -/

/-- Titles of a list of items. -/
def titlesOf (recs : List Recommendation) : List String :=
  recs.map (fun r => r.Title)

/-- All items of the three buckets, genre first. -/
def Buckets.all (b : Buckets) : List Recommendation :=
  b.genre_based ++ b.director_based ++ b.actor_based

/-- The buckets of a response; an error response has none. -/
def RecommendResponse.buckets : RecommendResponse → Option Buckets
  | .httpError _ _ => none
  | .json _ b => some b

/-- Every two adjacent items `a`, `b` satisfy `rating a >= rating b`. -/
def NonIncreasing (E : Env) (recs : List Recommendation) : Prop :=
  recs.Chain' (fun a b => F64.ge (rating E a) (rating E b) = true)

/-- Stability against the populated bucket `before`: whenever `a` stands before `b` in
`before` and both have the same numeric rating, `a` stands before `b` in `after`. -/
def StableWrt (E : Env) (before after : List Recommendation) : Prop :=
  ∀ a b, [a, b].Sublist before → rating E a = rating E b → [a, b].Sublist after

/-- An environment whose upstream resolves every title to a record of that very title,
of genre Drama, directed by X, with actor A; a title starting with `The` is rated 9.0,
any other 7.0. -/
def echoEnv : Env :=
  { sampleEnv with
    httpGet := fun url =>
      HttpReply.decoded (mkMovie (titleOfUrl url) "Drama" "X" "A"
        (if "The".data.isPrefixOf (titleOfUrl url).data then "9.0" else "7.0")) }

/-- The record `echoEnv` resolves the reference title `Heat` to: it shares genre,
director and actor with every record of that upstream. -/
def echoFav : Movie := mkMovie "Heat" "Drama" "X" "A" "7.0"

/-- The reference record of `nanEnv`, `tieEnv` and `caseEnv`. -/
def heatMovie : Movie := mkMovie "Heat" "Drama" "Michael Mann" "Al Pacino" "8.5"

/-- An environment whose upstream knows three titles: the reference `Heat` and the first
two pool titles, both of genre Drama, the first with the rating text `NaN`, the second
with `9.0`. -/
def nanEnv : Env :=
  { sampleEnv with
    httpGet := fun url =>
      if titleOfUrl url = "Heat" then
        HttpReply.decoded heatMovie
      else if titleOfUrl url = "The Shawshank Redemption" then
        HttpReply.decoded (mkMovie "The Shawshank Redemption" "Drama" "Frank Darabont"
          "Tim Robbins" "NaN")
      else if titleOfUrl url = "The Godfather" then
        HttpReply.decoded (mkMovie "The Godfather" "Crime, Drama" "Francis Ford Coppola"
          "Marlon Brando" "9.0")
      else HttpReply.callFailed }

/-- An environment whose upstream knows the reference `Heat` and the first thirteen pool
titles, all of genre Drama: the first twelve rated `7.0`, the thirteenth, `The Green
Mile`, rated `9.0`; `sort.Slice` is the sort of the Go library from release 1.19 on. -/
def tieEnv : Env :=
  { sampleEnv with
    httpGet := fun url =>
      if titleOfUrl url = "Heat" then
        HttpReply.decoded heatMovie
      else if titleOfUrl url = "The Green Mile" then
        HttpReply.decoded (mkMovie (titleOfUrl url) "Drama" "" "" "9.0")
      else if titleOfUrl url ∈ getMoviePool.take 12 then
        HttpReply.decoded (mkMovie (titleOfUrl url) "Drama" "" "" "7.0")
      else HttpReply.callFailed,
    sortSlice := pdqsortSlice }

/-- What the sort does guarantee between a populated bucket and its sorted form: the
same items, and an item rated strictly higher than another stands before it. -/
def OrderedByRating (E : Env) (before after : List Recommendation) : Prop :=
  after.Perm before ∧
  ∀ a ∈ before, ∀ b ∈ before, F64.gt (rating E a) (rating E b) = true →
    [a, b].Sublist after

/-- The reference record of `knightEnv`. -/
def darkKnight : Movie :=
  mkMovie "The Dark Knight" "Action, Crime, Drama" "Christopher Nolan"
    "Christian Bale, Heath Ledger, Aaron Eckhart" "9.0"

/-- The records known to the upstream of `knightEnv`. -/
def knightRecords : List Movie :=
  [darkKnight,
   mkMovie "Batman Begins" "Action, Crime, Drama" " christopher nolan "
     "Christian Bale, Michael Caine, Ken Watanabe" "8.5",
   mkMovie "The Prestige" "Drama, Mystery, Sci-Fi" "Christopher Nolan"
     "Christian Bale, Hugh Jackman, Scarlett Johansson" "8.5",
   mkMovie "Memento" "Mystery, Thriller" "Christopher Nolan"
     "Guy Pearce, Carrie-Anne Moss, Joe Pantoliano" "8.5",
   mkMovie "The Lion King" "Animation, Adventure, Drama" "Roger Allers, Rob Minkoff"
     "Matthew Broderick, Jeremy Irons, James Earl Jones" "8.5",
   mkMovie "American Hustle" "crime, drama" "David O. Russell"
     "Christian Bale, Amy Adams, Bradley Cooper" "7.0",
   mkMovie "Joy" "Biography" "David O. Russell"
     "Jennifer Lawrence, Robert De Niro, christian bale" "N/A"]

/-- An environment whose upstream answers from `knightRecords`, and answers any other
title with `Response` set to `False`. -/
def knightEnv : Env :=
  { sampleEnv with
    httpGet := fun url =>
      match knightRecords.find? (fun m => m.Title == titleOfUrl url) with
      | some m => HttpReply.decoded m
      | none =>
        HttpReply.decoded
          { mkMovie "" "" "" "" "" with Response := "False", Error := "Movie not found!" } }

/-- The pool title `t` resolves to `m`, which is not the reference title, has a genre
field containing one of the reference genres, and has the director of the reference:
the tests of the genre loop and of the director loop, both passed. -/
def MatchesGenreAndDirector (E : Env) (favMovie : Movie) (t : String) (m : Movie) : Prop :=
  fetchFromOMDb E ("t=" ++ E.queryEscape t) = .ok m ∧
  EqualFold E m.Title favMovie.Title = false ∧
  (∃ g ∈ Split favMovie.Genre, Contains (ToLower E m.Genre) (ToLower E g) = true) ∧
  EqualFold E (TrimSpace E m.Director) (TrimSpace E favMovie.Director) = true

/-- A reference record with empty genre, director and actors fields. -/
def blankMovie : Movie := mkMovie "Untitled" "" "" "" "N/A"

/-- The environment `knightEnv` with `blankMovie` added to the records of the upstream. -/
def blankEnv : Env :=
  { sampleEnv with
    httpGet := fun url =>
      match (blankMovie :: knightRecords).find? (fun m => m.Title == titleOfUrl url) with
      | some m => HttpReply.decoded m
      | none =>
        HttpReply.decoded
          { mkMovie "" "" "" "" "" with Response := "False", Error := "Movie not found!" } }

/-- An environment whose upstream answers the first pool title with a record titled
`Twin` and the second with a record titled `TWIN`, both of the genre of the reference
`Heat`. -/
def caseEnv : Env :=
  { sampleEnv with
    httpGet := fun url =>
      if titleOfUrl url = "Heat" then HttpReply.decoded heatMovie
      else if titleOfUrl url = "The Shawshank Redemption" then
        HttpReply.decoded (mkMovie "Twin" "Drama" "A. Director" "An Actor" "9.0")
      else if titleOfUrl url = "The Godfather" then
        HttpReply.decoded (mkMovie "TWIN" "Drama" "B. Director" "Another Actor" "7.0")
      else HttpReply.callFailed }

/-- The upstream gives one record per title over a pool: two pool titles that resolve
to records of the same title resolve to the same record. -/
def OneRecordPerTitle (E : Env) (titles : List String) : Prop :=
  ∀ t1 ∈ titles, ∀ t2 ∈ titles, ∀ m1 m2,
    fetchFromOMDb E ("t=" ++ E.queryEscape t1) = .ok m1 →
    fetchFromOMDb E ("t=" ++ E.queryEscape t2) = .ok m2 →
    m1.Title = m2.Title → m1 = m2

/-- Two buckets differ at most by a tie-break: the same items, and the same sequence of
numeric ratings. -/
def SameUpToTies (E : Env) (xs ys : List Recommendation) : Prop :=
  xs.Perm ys ∧ xs.map (rating E) = ys.map (rating E)

/-- The records the pool titles resolve to, in pool order. -/
def resolvedRecords (E : Env) (titles : List String) : List Movie :=
  titles.filterMap (fun t =>
    match fetchFromOMDb E ("t=" ++ E.queryEscape t) with
    | .ok m => some m
    | .error _ => none)

/-- A property of the envelope (reference title and buckets) holds of a response; an
error response carries no envelope and nothing is asked of it. -/
def RecommendResponse.Satisfies (P : String → Buckets → Prop) : RecommendResponse → Prop
  | .httpError _ _ => True
  | .json favorite_movie b => P favorite_movie b

/-- A property of the JSON value holds of a response; an error response carries no
value and nothing is asked of it. -/
def HandlerResponse.Satisfies {α : Type} (P : α → Prop) : HandlerResponse α → Prop
  | .httpError _ _ => True
  | .json value => P value

/-- The season listing of `seasonEnv`: two episode briefs. -/
def pilotSeason : Season :=
  { Title := "Breaking Bad", Season := "1", Total := "5",
    Episodes :=
      [{ Title := "Pilot", Released := "2008-01-20", Episode := "1", IMDBRating := "9.0",
         IMDBID := "tt0959621" },
       { Title := "Cat's in the Bag...", Released := "2008-01-27", Episode := "2",
         IMDBRating := "8.5", IMDBID := "tt1054724" }],
    Response := "True", Error := "" }

/-- The series record of `seasonEnv`. -/
def breakingBad : Movie :=
  { mkMovie "Breaking Bad" "Crime, Drama, Thriller" "N/A" "Bryan Cranston, Aaron Paul" "9.0"
    with IMDBID := "tt0903747", TotalSeasons := "5" }

/-- The detail record of the first episode in `seasonEnv`. -/
def pilotDetails : Movie :=
  { mkMovie "Pilot (Breaking Bad)" "Crime, Drama, Thriller" "Vince Gilligan"
      "Bryan Cranston, Aaron Paul" "8.5"
    with IMDBID := "tt0959621", Plot := "A chemistry teacher is diagnosed with cancer." }

/-- An environment whose upstream knows the series `Breaking Bad`, its first season and
the details of the first episode; the lookup of the second episode is answered with
`Response` set to `False`. -/
def seasonEnv : Env :=
  { sampleEnv with
    httpGet := fun url =>
      if url = "http://www.omdbapi.com/?t=Breaking Bad&type=series&apikey=k" then
        HttpReply.decoded breakingBad
      else if url = "http://www.omdbapi.com/?i=tt0959621&apikey=k" then
        HttpReply.decoded pilotDetails
      else
        HttpReply.decoded
          { mkMovie "" "" "" "" "" with Response := "False", Error := "Incorrect IMDb ID." },
    httpGetSeason := fun url =>
      if url = "http://www.omdbapi.com/?i=tt0903747&Season=1&apikey=k" then
        HttpReply.decoded pilotSeason
      else HttpReply.callFailed }

/-- The genre `g` is the first of the reference genres `favGenres`, in their order, that
the genre field of `m` contains, both lower-cased: it is contained, and no genre before
it in the list is. -/
def FirstMatchingGenre (E : Env) (favGenres : List String) (m : Movie) (g : String) : Prop :=
  ∃ before after, favGenres = before ++ g :: after ∧
    Contains (ToLower E m.Genre) (ToLower E g) = true ∧
    ∀ g0 ∈ before, Contains (ToLower E m.Genre) (ToLower E g0) = false

/-- No pool title resolves to a record whose genre field contains the query, both
lower-cased. -/
def NoGenreMatch (E : Env) (titles : List String) (genre : String) : Prop :=
  ∀ t ∈ titles, ∀ m, fetchFromOMDb E ("t=" ++ E.queryEscape t) = .ok m →
    Contains (ToLower E m.Genre) (ToLower E genre) = false

/-- The pool title `t` is a matching candidate for the query: it resolves, and the genre
field of its record contains the query, both lower-cased. -/
def isMatchingCandidate (E : Env) (genre : String) (t : String) : Bool :=
  match fetchFromOMDb E ("t=" ++ E.queryEscape t) with
  | .ok m => Contains (ToLower E m.Genre) (ToLower E genre)
  | .error _ => false

/-- Number `n` of matching pool candidates. -/
def matchingCount (E : Env) (titles : List String) (genre : String) : Nat :=
  (titles.filter (isMatchingCandidate E genre)).length

/-- The pool title `t` is a matching candidate for the query and `r` is its item: `t`
resolves to a record whose genre field contains the query, both lower-cased, and `r` is
built from that record with the reason `Genre match: ` followed by the query. -/
def producesItem (E : Env) (genre : String) (r : Recommendation) (t : String) : Bool :=
  match fetchFromOMDb E ("t=" ++ E.queryEscape t) with
  | .ok m =>
    Contains (ToLower E m.Genre) (ToLower E genre) &&
      decide (mkRecommendation m ("Genre match: " ++ genre) = r)
  | .error _ => false

/-- Number of matching pool candidates whose item is `r`. -/
def copiesInPool (E : Env) (titles : List String) (genre : String) (r : Recommendation) :
    Nat :=
  titles.countP (producesItem E genre r)

/-- No matching pool candidate has a rating text that scans to NaN. -/
def NoNaNMatch (E : Env) (titles : List String) (genre : String) : Prop :=
  ∀ t ∈ titles, ∀ m, fetchFromOMDb E ("t=" ++ E.queryEscape t) = .ok m →
    Contains (ToLower E m.Genre) (ToLower E genre) = true →
    parseRating E m.IMDBRating ≠ F64.nan

/-- The items of a top list, against the pool: with `n` matching pool candidates the
list has `min 15 n` items, every item comes from a matching candidate, and no item
occurs more often than there are matching candidates that give it. -/
def TopListItems (E : Env) (titles : List String) (genre : String)
    (movies : List Recommendation) : Prop :=
  movies.length = min 15 (matchingCount E titles genre) ∧
  (∀ r ∈ movies, ∃ t ∈ titles, ∃ m, fetchFromOMDb E ("t=" ++ E.queryEscape t) = .ok m ∧
    Contains (ToLower E m.Genre) (ToLower E genre) = true ∧
    r = mkRecommendation m ("Genre match: " ++ genre)) ∧
  ∀ r, movies.count r ≤ copiesInPool E titles genre r

/-- The order of a top list, against the pool: the list is in non-increasing order of
numeric rating, and a matching candidate that is left out (the list has its item less
often than the pool has candidates giving it) is not rated strictly higher than any
returned item. -/
def TopListOrder (E : Env) (titles : List String) (genre : String)
    (movies : List Recommendation) : Prop :=
  NonIncreasing E movies ∧
  ∀ r, movies.count r < copiesInPool E titles genre r →
    ∀ k ∈ movies, F64.gt (rating E r) (rating E k) = false

/-- Of a list of records, in order, those whose title is not already seen: not in
`seen` and not the title of a record kept before. -/
def firstOfEachTitle : List Movie → List String → List Movie
  | [], _ => []
  | m :: ms, seen =>
    if m.Title ∈ seen then firstOfEachTitle ms seen
    else m :: firstOfEachTitle ms (m.Title :: seen)

/-- Follows the words of the claim on the genre bucket: the pool candidates, in pool
order, that resolve successfully, are not the reference title, have a genre field
containing some reference genre (both lower-cased), and are not already seen. -/
def genreCandidatesInPoolOrder (E : Env) (titles : List String) (favMovie : Movie) :
    List Movie :=
  firstOfEachTitle
    ((resolvedRecords E titles).filter (fun m =>
      (!EqualFold E m.Title favMovie.Title) &&
        (Split favMovie.Genre).any (fun g => Contains (ToLower E m.Genre) (ToLower E g))))
    []

/-- A resolved record passes every test of a population loop but the one on `seenAll`. -/
def accepts (E : Env) (favMovie : Movie) (guard : Movie → Bool)
    (reason : Movie → Option String) (m : Movie) : Bool :=
  (!EqualFold E m.Title favMovie.Title) && guard m && (reason m).isSome

/-- The item a population loop appends for a record it accepts. -/
def itemOf (reason : Movie → Option String) (m : Movie) : Option Recommendation :=
  (reason m).map (mkRecommendation m)

/-- What one population loop adds: `new` is appended to the bucket, its titles are put
in `seenAll`; they are pairwise distinct and were not seen before; every new item comes
from a pool title whose lookup succeeded and passed the tests of the loop; the bucket
does not grow beyond 15. -/
structure PopulateSpec (E : Env) (favMovie : Movie) (guard : Movie → Bool)
    (reason : Movie → Option String) (titles : List String) (recs : List Recommendation)
    (seenAll : List String) (new : List Recommendation) : Prop where
  result : populate E favMovie guard reason titles (recs, seenAll) =
    (recs ++ new, (titlesOf new).reverse ++ seenAll)
  nodup : (titlesOf new).Nodup
  fresh : ∀ r ∈ new, r.Title ∉ seenAll
  origin : ∀ r ∈ new, ∃ t ∈ titles, ∃ m why,
    fetchFromOMDb E ("t=" ++ E.queryEscape t) = .ok m ∧
    EqualFold E m.Title favMovie.Title = false ∧ guard m = true ∧
    reason m = some why ∧ r = mkRecommendation m why
  bound : recs.length ≤ 15 → recs.length + new.length ≤ 15

/-! # Theorems -/

/-! ## The population loop -/

theorem populateSpec_weaken {E : Env} {favMovie : Movie} {guard : Movie → Bool}
    {reason : Movie → Option String} {t : String} {ts : List String}
    {recs : List Recommendation} {seenAll : List String} {new : List Recommendation}
    (h : PopulateSpec E favMovie guard reason ts recs seenAll new)
    (heq : populate E favMovie guard reason (t :: ts) (recs, seenAll) =
      populate E favMovie guard reason ts (recs, seenAll)) :
    PopulateSpec E favMovie guard reason (t :: ts) recs seenAll new where
  result := heq.trans h.result
  nodup := h.nodup
  fresh := h.fresh
  origin := fun r hr => by
    obtain ⟨t0, ht0, rest⟩ := h.origin r hr
    exact ⟨t0, List.mem_cons_of_mem _ ht0, rest⟩
  bound := h.bound

theorem populate_spec (E : Env) (favMovie : Movie) (guard : Movie → Bool)
    (reason : Movie → Option String) (titles : List String) :
    ∀ (recs : List Recommendation) (seenAll : List String),
      ∃ new, PopulateSpec E favMovie guard reason titles recs seenAll new := by
  induction titles with
  | nil =>
    intro recs seenAll
    exact ⟨[], by simp [populate, titlesOf], by simp [titlesOf], by simp, by simp, by simp⟩
  | cons t ts ih =>
    intro recs seenAll
    by_cases hlen : recs.length ≥ 15
    · refine ⟨[], ?_, by simp [titlesOf], by simp, by simp, by simp⟩
      simp [populate, hlen, titlesOf]
    · cases hf : fetchFromOMDb E ("t=" ++ E.queryEscape t) with
      | error e =>
        obtain ⟨new, hnew⟩ := ih recs seenAll
        exact ⟨new, populateSpec_weaken hnew (by simp [populate, hlen, hf])⟩
      | ok m =>
        by_cases hg : ((!EqualFold E m.Title favMovie.Title) && guard m) = true
        · by_cases hseen : m.Title ∈ seenAll
          · obtain ⟨new, hnew⟩ := ih recs seenAll
            exact ⟨new, populateSpec_weaken hnew (by simp [populate, hlen, hf, hg, hseen])⟩
          · cases hr : reason m with
            | none =>
              obtain ⟨new, hnew⟩ := ih recs seenAll
              exact ⟨new, populateSpec_weaken hnew
                (by simp [populate, hlen, hf, hg, hseen, hr])⟩
            | some why =>
              obtain ⟨new, hnew⟩ :=
                ih (recs ++ [mkRecommendation m why]) (m.Title :: seenAll)
              have hnotin : m.Title ∉ titlesOf new := by
                intro hmem
                obtain ⟨r, hrmem, hrt⟩ := List.mem_map.1 hmem
                exact hnew.fresh r hrmem (by simp [hrt])
              have hg2 : EqualFold E m.Title favMovie.Title = false ∧ guard m = true := by
                simpa using hg
              refine ⟨mkRecommendation m why :: new, ?_, ?_, ?_, ?_, ?_⟩
              · have := hnew.result
                simp only [populate, hlen, hf, hg, hseen, hr, if_true, if_false]
                rw [this]
                simp [titlesOf, mkRecommendation]
              · have hcons : titlesOf (mkRecommendation m why :: new) =
                    m.Title :: titlesOf new := rfl
                rw [hcons]
                exact List.nodup_cons.2 ⟨hnotin, hnew.nodup⟩
              · intro r hrmem
                rcases List.mem_cons.1 hrmem with rfl | hrmem
                · simpa [mkRecommendation] using hseen
                · exact fun hin => hnew.fresh r hrmem (List.mem_cons_of_mem _ hin)
              · intro r hrmem
                rcases List.mem_cons.1 hrmem with rfl | hrmem
                · exact ⟨t, List.mem_cons_self _ _, m, why, hf, hg2.1, hg2.2, hr, rfl⟩
                · obtain ⟨t0, ht0, rest⟩ := hnew.origin r hrmem
                  exact ⟨t0, List.mem_cons_of_mem _ ht0, rest⟩
              · intro hle
                have hlt : recs.length < 15 := by omega
                have := hnew.bound (by simp; omega)
                simp at this ⊢
                omega
        · obtain ⟨new, hnew⟩ := ih recs seenAll
          exact ⟨new, populateSpec_weaken hnew (by simp [populate, hlen, hf, hg])⟩

/-- The three loops in sequence: the genre loop starts from an empty `seenAll`, each
later loop from the titles of the buckets before it. -/
theorem populateBuckets_spec (E : Env) (titles : List String) (favMovie : Movie) :
    ∃ g d a, populateBuckets E titles favMovie =
        { genre_based := g, director_based := d, actor_based := a } ∧
      PopulateSpec E favMovie (fun _ => true) (genreReason E (Split favMovie.Genre))
        titles [] [] g ∧
      PopulateSpec E favMovie (directorGuard E favMovie)
        (fun _ => some ("Same director: " ++ favMovie.Director))
        titles [] (titlesOf g).reverse d ∧
      PopulateSpec E favMovie (fun _ => true) (actorReason E (Split favMovie.Actors))
        titles [] ((titlesOf d).reverse ++ (titlesOf g).reverse) a := by
  obtain ⟨g, hg⟩ := populate_spec E favMovie (fun _ => true)
    (genreReason E (Split favMovie.Genre)) titles [] []
  obtain ⟨d, hd⟩ := populate_spec E favMovie (directorGuard E favMovie)
    (fun _ => some ("Same director: " ++ favMovie.Director)) titles []
    (titlesOf g).reverse
  obtain ⟨a, ha⟩ := populate_spec E favMovie (fun _ => true)
    (actorReason E (Split favMovie.Actors)) titles []
    ((titlesOf d).reverse ++ (titlesOf g).reverse)
  refine ⟨g, d, a, ?_, hg, hd, ha⟩
  have h1 := hg.result
  have h2 := hd.result
  have h3 := ha.result
  simp only [List.nil_append, List.append_nil] at h1 h2 h3
  simp only [populateBuckets, genreLoop, directorLoop, actorLoop, h1, h2, h3]

/-- A property that holds of the finished buckets for every resolved reference movie
holds of the response of the handler. -/
theorem recommendWithPool_satisfies (E : Env) (titles : List String) (fav : String)
    (P : String → Buckets → Prop)
    (h : ∀ favMovie, P favMovie.Title (finishBuckets E (populateBuckets E titles favMovie))) :
    (recommendWithPool E titles fav).Satisfies P := by
  unfold recommendWithPool
  split
  · trivial
  · split
    · trivial
    · exact h _

theorem trim15_length (recs : List Recommendation) : (trim15 recs).length ≤ 15 := by
  unfold trim15
  split
  · simp
  · omega

theorem trim15_sublist (recs : List Recommendation) : (trim15 recs).Sublist recs := by
  unfold trim15
  split
  · exact List.take_sublist _ _
  · exact List.Sublist.refl _

theorem trim15_of_le {recs : List Recommendation} (h : recs.length ≤ 15) :
    trim15 recs = recs := by
  unfold trim15
  rw [if_neg (by omega)]

/-- The populated buckets hold at most 15 items each. -/
theorem populateBuckets_length (E : Env) (titles : List String) (favMovie : Movie) :
    (populateBuckets E titles favMovie).genre_based.length ≤ 15 ∧
    (populateBuckets E titles favMovie).director_based.length ≤ 15 ∧
    (populateBuckets E titles favMovie).actor_based.length ≤ 15 := by
  obtain ⟨g, d, a, heq, hg, hd, ha⟩ := populateBuckets_spec E titles favMovie
  have h1 := hg.bound (by simp)
  have h2 := hd.bound (by simp)
  have h3 := ha.bound (by simp)
  rw [heq]
  simp at h1 h2 h3
  exact ⟨h1, h2, h3⟩

/-! ## Two sorts that meet the contract of `sort.Slice` -/

theorem insertByLess_perm {α : Type} (less : α → α → Bool) (x : α) (l : List α) :
    (insertByLess less x l).Perm (x :: l) := by
  induction l with
  | nil => exact List.Perm.refl _
  | cons y ys ih =>
    unfold insertByLess
    split
    · exact List.Perm.refl _
    · exact (List.Perm.cons y ih).trans (List.Perm.swap x y ys)

theorem insertionSortBy_foldl_perm {α : Type} (less : α → α → Bool) (xs : List α) :
    ∀ acc : List α,
      (xs.foldl (fun acc x => insertByLess less x acc) acc).Perm (acc ++ xs) := by
  induction xs with
  | nil => intro acc; simp
  | cons x xs ih =>
    intro acc
    simp only [List.foldl_cons]
    refine (ih _).trans ?_
    refine ((insertByLess_perm less x acc).append_right xs).trans ?_
    exact List.perm_middle.symm

theorem insertionSortBy_perm {α : Type} (less : α → α → Bool) (xs : List α) :
    (insertionSortBy less xs).Perm xs := by
  simpa [insertionSortBy] using insertionSortBy_foldl_perm less xs []

theorem insertByLess_pairwise {α : Type} (less : α → α → Bool) (L : List α)
    (hsw : StrictWeakOn less L) (x : α) (hx : x ∈ L) :
    ∀ l : List α, (∀ a ∈ l, a ∈ L) → l.Pairwise (fun a b => less b a = false) →
      (insertByLess less x l).Pairwise (fun a b => less b a = false) := by
  intro l
  induction l with
  | nil => intro _ _; simp [insertByLess]
  | cons y ys ih =>
    intro hsub hp
    have hy : y ∈ L := hsub y (List.mem_cons_self _ _)
    have hys : ∀ a ∈ ys, a ∈ L := fun a ha => hsub a (List.mem_cons_of_mem _ ha)
    rw [List.pairwise_cons] at hp
    unfold insertByLess
    by_cases hxy : less x y = true
    · rw [if_pos hxy]
      refine List.pairwise_cons.2 ⟨?_, List.pairwise_cons.2 hp⟩
      intro z hz
      have hzL : z ∈ L := hsub z hz
      by_contra hzx
      have hzx : less z x = true := by simpa using hzx
      have hzy : less z y = true := hsw.2.1 z hzL x hx y hy hzx hxy
      rcases List.mem_cons.1 hz with rfl | hz
      · have := hsw.1 z hzL
        rw [this] at hzy
        exact Bool.noConfusion hzy
      · have := hp.1 z hz
        rw [this] at hzy
        exact Bool.noConfusion hzy
    · rw [if_neg hxy]
      refine List.pairwise_cons.2 ⟨?_, ih hys hp.2⟩
      intro z hz
      rcases List.mem_cons.1 ((insertByLess_perm less x ys).subset hz) with rfl | hz
      · simpa using hxy
      · exact hp.1 z hz

theorem insertionSortBy_foldl_pairwise {α : Type} (less : α → α → Bool) (L : List α)
    (hsw : StrictWeakOn less L) (xs : List α) :
    ∀ acc : List α, (∀ a ∈ xs, a ∈ L) → (∀ a ∈ acc, a ∈ L) →
      acc.Pairwise (fun a b => less b a = false) →
      (xs.foldl (fun acc x => insertByLess less x acc) acc).Pairwise
        (fun a b => less b a = false) := by
  induction xs with
  | nil => intro acc _ _ hp; simpa using hp
  | cons x xs ih =>
    intro acc hxs hacc hp
    simp only [List.foldl_cons]
    have hx : x ∈ L := hxs x (List.mem_cons_self _ _)
    refine ih _ (fun a ha => hxs a (List.mem_cons_of_mem _ ha)) ?_
      (insertByLess_pairwise less L hsw x hx acc hacc hp)
    intro a ha
    rcases List.mem_cons.1 ((insertByLess_perm less x acc).subset ha) with rfl | ha
    · exact hx
    · exact hacc a ha

theorem insertionSortBy_pairwise {α : Type} (less : α → α → Bool) (xs : List α)
    (hsw : StrictWeakOn less xs) :
    (insertionSortBy less xs).Pairwise (fun a b => less b a = false) :=
  insertionSortBy_foldl_pairwise less xs hsw xs [] (fun _ h => h) (by simp)
    List.Pairwise.nil

theorem strictWeakOn_of_perm {α : Type} {less : α → α → Bool} {xs ys : List α}
    (hp : xs.Perm ys) (h : StrictWeakOn less ys) : StrictWeakOn less xs :=
  ⟨fun a ha => h.1 a (hp.subset ha),
   fun a ha b hb c hc => h.2.1 a (hp.subset ha) b (hp.subset hb) c (hp.subset hc),
   fun a ha b hb c hc => h.2.2 a (hp.subset ha) b (hp.subset hb) c (hp.subset hc)⟩

/-- The stable insertion sort meets the contract of `sort.Slice`. -/
theorem insertionSortBy_spec : SortSliceSpec insertionSortBy :=
  fun less xs => ⟨insertionSortBy_perm less xs, insertionSortBy_pairwise less xs⟩

/-! ## Completeness of a loop that never reaches the cap -/

theorem populate_seen_mono (E : Env) (favMovie : Movie) (guard : Movie → Bool)
    (reason : Movie → Option String) (titles : List String) (st : LoopState)
    (x : String) (hx : x ∈ st.2) : x ∈ (populate E favMovie guard reason titles st).2 := by
  obtain ⟨new, hnew⟩ := populate_spec E favMovie guard reason titles st.1 st.2
  have h := hnew.result
  rw [h]
  exact List.mem_append.2 (Or.inr hx)

/-- When the bucket ends with fewer than 15 items, the loop has examined the whole pool:
the title of every candidate that resolved and passed the tests of the loop is in
`seenAll` at the end. -/
theorem populate_complete (E : Env) (favMovie : Movie) (guard : Movie → Bool)
    (reason : Movie → Option String) (titles : List String) :
    ∀ st : LoopState, (populate E favMovie guard reason titles st).1.length < 15 →
      ∀ t ∈ titles, ∀ m why, fetchFromOMDb E ("t=" ++ E.queryEscape t) = .ok m →
        EqualFold E m.Title favMovie.Title = false → guard m = true →
        reason m = some why →
        m.Title ∈ (populate E favMovie guard reason titles st).2 := by
  induction titles with
  | nil => intro st _ t ht; cases ht
  | cons t0 ts ih =>
    rintro ⟨recs, seenAll⟩ hlt t ht m why hf hfold hguard hreason
    have hlen : ¬ recs.length ≥ 15 := by
      intro hge
      simp [populate, hge] at hlt
      omega
    -- the state after the iteration for `t0`
    obtain ⟨st1, hstep, hhead⟩ : ∃ st1 : LoopState,
        populate E favMovie guard reason (t0 :: ts) (recs, seenAll) =
          populate E favMovie guard reason ts st1 ∧
        (t = t0 → m.Title ∈ st1.2) := by
      cases hf0 : fetchFromOMDb E ("t=" ++ E.queryEscape t0) with
      | error e =>
        refine ⟨(recs, seenAll), by simp [populate, hlen, hf0], ?_⟩
        intro heq
        rw [heq, hf0] at hf
        cases hf
      | ok m0 =>
        by_cases hg : ((!EqualFold E m0.Title favMovie.Title) && guard m0) = true
        · by_cases hseen : m0.Title ∈ seenAll
          · refine ⟨(recs, seenAll), by simp [populate, hlen, hf0, hg, hseen], ?_⟩
            intro heq
            rw [heq, hf0] at hf
            cases hf
            exact hseen
          · cases hr : reason m0 with
            | none =>
              refine ⟨(recs, seenAll), by simp [populate, hlen, hf0, hg, hseen, hr], ?_⟩
              intro heq
              rw [heq, hf0] at hf
              cases hf
              rw [hr] at hreason
              cases hreason
            | some why0 =>
              refine ⟨(recs ++ [mkRecommendation m0 why0], m0.Title :: seenAll),
                by simp only [populate, hlen, hf0, hg, hseen, hr, if_true, if_false], ?_⟩
              intro heq
              rw [heq, hf0] at hf
              cases hf
              exact List.mem_cons_self _ _
        · refine ⟨(recs, seenAll), by simp [populate, hlen, hf0, hg], ?_⟩
          intro heq
          rw [heq, hf0] at hf
          cases hf
          simp [hfold, hguard] at hg
    rw [hstep] at hlt ⊢
    rcases List.mem_cons.1 ht with heq | hts
    · exact populate_seen_mono E favMovie guard reason ts st1 _ (hhead heq)
    · exact ih st1 hlt t hts m why hf hfold hguard hreason

/-! ## Sort and trim -/

theorem sortByRating_perm {E : Env} (hsort : SortSliceSpec E.sortSlice)
    (xs : List Recommendation) : (sortByRating E xs).Perm xs :=
  (hsort (ratingLess E) xs).1

theorem mem_of_mem_finish {E : Env} (hsort : SortSliceSpec E.sortSlice)
    {xs : List Recommendation} {r : Recommendation}
    (h : r ∈ trim15 (sortByRating E xs)) : r ∈ xs :=
  (sortByRating_perm hsort xs).subset ((trim15_sublist _).subset h)

theorem titlesOf_append (xs ys : List Recommendation) :
    titlesOf (xs ++ ys) = titlesOf xs ++ titlesOf ys := by
  simp [titlesOf]

/-- The titles of the finished buckets are a sublist of a rearrangement of the titles
of the populated buckets. -/
theorem finish_titles_nodup {E : Env} (hsort : SortSliceSpec E.sortSlice) (b : Buckets)
    (h : (titlesOf b.all).Nodup) : (titlesOf (finishBuckets E b).all).Nodup := by
  have hsub : (titlesOf (finishBuckets E b).all).Sublist
      (titlesOf (sortByRating E b.genre_based ++ sortByRating E b.director_based ++
        sortByRating E b.actor_based)) := by
    unfold titlesOf Buckets.all finishBuckets
    exact (((trim15_sublist _).append (trim15_sublist _)).append (trim15_sublist _)).map _
  have hperm : (titlesOf (sortByRating E b.genre_based ++ sortByRating E b.director_based ++
      sortByRating E b.actor_based)).Perm (titlesOf b.all) := by
    unfold titlesOf Buckets.all
    exact (((sortByRating_perm hsort _).append (sortByRating_perm hsort _)).append
      (sortByRating_perm hsort _)).map _
  exact (hperm.nodup_iff.2 h).sublist hsub

/-- In the populated buckets no title occurs twice, within a bucket or across them. -/
theorem populateBuckets_titles_nodup (E : Env) (titles : List String) (favMovie : Movie) :
    (titlesOf (populateBuckets E titles favMovie).all).Nodup := by
  obtain ⟨g, d, a, heq, hg, hd, ha⟩ := populateBuckets_spec E titles favMovie
  rw [heq]
  simp only [Buckets.all, titlesOf_append]
  have hgd : (titlesOf g ++ titlesOf d).Nodup := by
    refine List.Nodup.append hg.nodup hd.nodup ?_
    intro x hxg hxd
    obtain ⟨r, hr, rfl⟩ := List.mem_map.1 hxd
    exact hd.fresh r hr (List.mem_reverse.2 hxg)
  refine List.Nodup.append hgd ha.nodup ?_
  intro x hx hxa
  obtain ⟨r, hr, rfl⟩ := List.mem_map.1 hxa
  refine ha.fresh r hr ?_
  rcases List.mem_append.1 hx with h | h
  · exact List.mem_append.2 (Or.inr (List.mem_reverse.2 h))
  · exact List.mem_append.2 (Or.inl (List.mem_reverse.2 h))

/-- No populated item carries a title that folds to the reference title. -/
theorem populateBuckets_not_reference (E : Env) (titles : List String) (favMovie : Movie)
    (r : Recommendation) (hr : r ∈ (populateBuckets E titles favMovie).all) :
    EqualFold E r.Title favMovie.Title = false := by
  obtain ⟨g, d, a, heq, hg, hd, ha⟩ := populateBuckets_spec E titles favMovie
  rw [heq] at hr
  simp only [Buckets.all, List.mem_append] at hr
  rcases hr with (h | h) | h
  · obtain ⟨_, _, m, why, _, hfold, _, _, rfl⟩ := hg.origin r h
    exact hfold
  · obtain ⟨_, _, m, why, _, hfold, _, _, rfl⟩ := hd.origin r h
    exact hfold
  · obtain ⟨_, _, m, why, _, hfold, _, _, rfl⟩ := ha.origin r h
    exact hfold

theorem mem_all_of_mem_finish_all {E : Env} (hsort : SortSliceSpec E.sortSlice)
    {b : Buckets} {r : Recommendation} (h : r ∈ (finishBuckets E b).all) : r ∈ b.all := by
  simp only [Buckets.all, finishBuckets, List.mem_append] at h ⊢
  rcases h with (h | h) | h
  · exact Or.inl (Or.inl (mem_of_mem_finish hsort h))
  · exact Or.inl (Or.inr (mem_of_mem_finish hsort h))
  · exact Or.inr (mem_of_mem_finish hsort h)

theorem echoEnv_sort : SortSliceSpec echoEnv.sortSlice := insertionSortBy_spec

/-! ## Order of `float64` values -/

theorem F64.gt_irrefl (a : F64) : F64.gt a a = false := by
  cases a <;> simp [F64.gt]

theorem F64.gt_trans {a b c : F64} (hab : F64.gt a b = true) (hbc : F64.gt b c = true) :
    F64.gt a c = true := by
  cases a <;> cases b <;> cases c <;> simp_all [F64.gt]
  exact lt_trans hbc hab

theorem F64.gt_negtrans {a b c : F64} (ha : a ≠ F64.nan) (hb : b ≠ F64.nan)
    (hc : c ≠ F64.nan) (hab : F64.gt a b = false) (hbc : F64.gt b c = false) :
    F64.gt a c = false := by
  cases a <;> cases b <;> cases c <;> simp_all [F64.gt]
  exact le_trans hab hbc

theorem F64.ge_of_not_gt {a b : F64} (ha : a ≠ F64.nan) (hb : b ≠ F64.nan)
    (h : F64.gt b a = false) : F64.ge a b = true := by
  cases a <;> cases b <;> simp_all [F64.gt, F64.ge]

/-- On a bucket without NaN rating, `ri > rj` meets the requirement of `sort.Slice`. -/
theorem ratingLess_strictWeakOn (E : Env) (xs : List Recommendation)
    (hnan : ∀ r ∈ xs, rating E r ≠ F64.nan) : StrictWeakOn (ratingLess E) xs :=
  ⟨fun _ _ => F64.gt_irrefl _,
   fun _ _ _ _ _ _ hab hbc => F64.gt_trans hab hbc,
   fun a ha b hb c hc hab hbc =>
     F64.gt_negtrans (hnan a ha) (hnan b hb) (hnan c hc) hab hbc⟩

/-- A bucket without NaN rating is in non-increasing order of rating after sort and
trim. -/
theorem finish_nonIncreasing {E : Env} (hsort : SortSliceSpec E.sortSlice)
    (xs : List Recommendation) (hnan : ∀ r ∈ xs, rating E r ≠ F64.nan) :
    NonIncreasing E (trim15 (sortByRating E xs)) := by
  have hperm := sortByRating_perm hsort xs
  have hpw := (hsort (ratingLess E) xs).2 (ratingLess_strictWeakOn E xs hnan)
  have hge : (sortByRating E xs).Pairwise
      (fun a b => F64.ge (rating E a) (rating E b) = true) := by
    refine List.Pairwise.imp_of_mem ?_ hpw
    intro a b ha hb hba
    exact F64.ge_of_not_gt (hnan a (hperm.subset ha)) (hnan b (hperm.subset hb)) hba
  exact (hge.sublist (trim15_sublist _)).chain'

/-- Two different members of a list stand in one order or the other. -/
theorem pair_sublist_or {α : Type} {a b : α} (hne : a ≠ b) :
    ∀ l : List α, a ∈ l → b ∈ l → [a, b].Sublist l ∨ [b, a].Sublist l := by
  intro l
  induction l with
  | nil => intro h; cases h
  | cons x xs ih =>
    intro ha hb
    rcases List.mem_cons.1 ha with hax | hax
    · rcases List.mem_cons.1 hb with hbx | hbx
      · exact absurd (hax.trans hbx.symm) hne
      · rw [hax]
        exact Or.inl (List.Sublist.cons₂ _ (List.singleton_sublist.2 hbx))
    · rcases List.mem_cons.1 hb with hbx | hbx
      · rw [hbx]
        exact Or.inr (List.Sublist.cons₂ _ (List.singleton_sublist.2 hax))
      · rcases ih hax hbx with h | h
        · exact Or.inl (List.Sublist.cons _ h)
        · exact Or.inr (List.Sublist.cons _ h)

/-- Sort and trim of a bucket of at most 15 items without NaN rating. -/
theorem finish_orderedByRating {E : Env} (hsort : SortSliceSpec E.sortSlice)
    (xs : List Recommendation) (hlen : xs.length ≤ 15)
    (hnan : ∀ r ∈ xs, rating E r ≠ F64.nan) :
    OrderedByRating E xs (trim15 (sortByRating E xs)) := by
  have hperm := sortByRating_perm hsort xs
  have htrim : trim15 (sortByRating E xs) = sortByRating E xs :=
    trim15_of_le (by rw [hperm.length_eq]; exact hlen)
  rw [htrim]
  refine ⟨hperm, ?_⟩
  intro a ha b hb hgt
  have hpw := (hsort (ratingLess E) xs).2 (ratingLess_strictWeakOn E xs hnan)
  have hne : a ≠ b := by
    rintro rfl
    rw [F64.gt_irrefl] at hgt
    exact Bool.noConfusion hgt
  rcases pair_sublist_or hne _ (hperm.symm.subset ha) (hperm.symm.subset hb) with h | h
  · exact h
  · have h2 := hpw.sublist h
    simp only [List.pairwise_cons, List.mem_singleton, forall_eq] at h2
    have h3 : ratingLess E a b = false := h2.1
    unfold ratingLess at h3
    rw [hgt] at h3
    exact Bool.noConfusion h3

theorem genreReason_isSome (E : Env) (favGenres : List String) (m : Movie)
    (h : ∃ g ∈ favGenres, Contains (ToLower E m.Genre) (ToLower E g) = true) :
    ∃ why, genreReason E favGenres m = some why := by
  unfold genreReason
  cases hfind : favGenres.find? (fun g => Contains (ToLower E m.Genre) (ToLower E g)) with
  | none =>
    obtain ⟨g, hg, hc⟩ := h
    have := List.find?_eq_none.1 hfind g hg
    simp [hc] at this
  | some g => exact ⟨_, rfl⟩

/-- When the genre bucket ends with fewer than 15 items, the title of every candidate
that passes the tests of the genre loop is the title of one of its items. -/
theorem genre_bucket_complete (E : Env) (titles : List String) (favMovie : Movie)
    (hcap : (populateBuckets E titles favMovie).genre_based.length < 15)
    (t : String) (ht : t ∈ titles) (m : Movie)
    (hf : fetchFromOMDb E ("t=" ++ E.queryEscape t) = .ok m)
    (hfold : EqualFold E m.Title favMovie.Title = false)
    (hgenre : ∃ g ∈ Split favMovie.Genre, Contains (ToLower E m.Genre) (ToLower E g) = true) :
    m.Title ∈ titlesOf (populateBuckets E titles favMovie).genre_based := by
  obtain ⟨g, d, a, heq, hg, _, _⟩ := populateBuckets_spec E titles favMovie
  obtain ⟨why, hwhy⟩ := genreReason_isSome E _ m hgenre
  rw [heq] at hcap ⊢
  have hres := hg.result
  simp only [List.nil_append, List.append_nil] at hres
  have hmem := populate_complete E favMovie (fun _ => true)
    (genreReason E (Split favMovie.Genre)) titles ([], []) (by rw [hres]; exact hcap)
    t ht m why hf hfold rfl hwhy
  rw [hres] at hmem
  exact List.mem_reverse.1 hmem

theorem knightEnv_sort : SortSliceSpec knightEnv.sortSlice := insertionSortBy_spec

/-- The test `if seenAll[m.Title] { continue }`: a candidate whose exact title is a key
of `seenAll` leaves bucket and `seenAll` as they are. -/
theorem populate_skip_seen (E : Env) (favMovie : Movie) (guard : Movie → Bool)
    (reason : Movie → Option String) (t : String) (ts : List String)
    (recs : List Recommendation) (seenAll : List String) (m : Movie)
    (hf : fetchFromOMDb E ("t=" ++ E.queryEscape t) = .ok m) (hseen : m.Title ∈ seenAll) :
    populate E favMovie guard reason (t :: ts) (recs, seenAll) =
      populate E favMovie guard reason ts (recs, seenAll) := by
  by_cases hlen : recs.length ≥ 15
  · cases ts with
    | nil => simp [populate, hlen]
    | cons t1 ts1 => simp [populate, hlen]
  · by_cases hg : ((!EqualFold E m.Title favMovie.Title) && guard m) = true
    · simp [populate, hlen, hf, hg, hseen]
    · simp [populate, hlen, hf, hg]

theorem caseEnv_sort : SortSliceSpec caseEnv.sortSlice := insertionSortBy_spec

/-! ## Reordering the pool -/

/-- With the cap not reached on the first pool, every item a second pool with no other
titles adds is an item the first pool adds. -/
theorem populate_sub (E : Env) (favMovie : Movie) (guard : Movie → Bool)
    (reason : Movie → Option String) (titles1 titles2 : List String)
    (seen1 seen2 : List String) (new1 new2 : List Recommendation)
    (h1 : PopulateSpec E favMovie guard reason titles1 [] seen1 new1)
    (h2 : PopulateSpec E favMovie guard reason titles2 [] seen2 new2)
    (hsub : ∀ t ∈ titles2, t ∈ titles1) (hseen : ∀ x ∈ seen1, x ∈ seen2)
    (hone : OneRecordPerTitle E titles1) (hcap : new1.length < 15) :
    ∀ r ∈ new2, r ∈ new1 := by
  intro r hr
  obtain ⟨t, ht, m, why, hf, hfold, hguard, hreason, rfl⟩ := h2.origin r hr
  have hres := h1.result
  simp only [List.nil_append] at hres
  have hmem := populate_complete E favMovie guard reason titles1 ([], seen1)
    (by rw [hres]; exact hcap) t (hsub t ht) m why hf hfold hguard hreason
  rw [hres] at hmem
  have hnot : m.Title ∉ seen1 := fun hin => h2.fresh _ hr (hseen _ hin)
  rcases List.mem_append.1 hmem with hin | hin
  · obtain ⟨r1, hr1, hr1t⟩ := List.mem_map.1 (List.mem_reverse.1 hin)
    obtain ⟨t1, ht1, m1, why1, hf1, _, _, hreason1, rfl⟩ := h1.origin r1 hr1
    have hm : m1 = m := hone t1 ht1 t (hsub t ht) m1 m hf1 hf hr1t
    subst hm
    rw [hreason] at hreason1
    cases hreason1
    exact hr1
  · exact absurd hin hnot

theorem populateSpec_nodup {E : Env} {favMovie : Movie} {guard : Movie → Bool}
    {reason : Movie → Option String} {titles : List String} {recs : List Recommendation}
    {seenAll : List String} {new : List Recommendation}
    (h : PopulateSpec E favMovie guard reason titles recs seenAll new) : new.Nodup :=
  List.Nodup.of_map _ h.nodup

/-- One loop over two orderings of a pool, from `seenAll` maps with the same keys: when
the cap is not reached on the first ordering, the two orderings add the same items. -/
theorem populate_perm (E : Env) (favMovie : Movie) (guard : Movie → Bool)
    (reason : Movie → Option String) (titles1 titles2 : List String)
    (seen1 seen2 : List String) (new1 new2 : List Recommendation)
    (h1 : PopulateSpec E favMovie guard reason titles1 [] seen1 new1)
    (h2 : PopulateSpec E favMovie guard reason titles2 [] seen2 new2)
    (hperm : titles2.Perm titles1) (hseen : ∀ x, x ∈ seen1 ↔ x ∈ seen2)
    (hone : OneRecordPerTitle E titles1) (hcap : new1.length < 15) :
    new2.Perm new1 := by
  have h21 : ∀ r ∈ new2, r ∈ new1 :=
    populate_sub E favMovie guard reason titles1 titles2 seen1 seen2 new1 new2 h1 h2
      (fun t ht => hperm.subset ht) (fun x hx => (hseen x).1 hx) hone hcap
  have hlen : new2.length ≤ new1.length :=
    (List.subperm_of_subset (populateSpec_nodup h2) h21).length_le
  have hone2 : OneRecordPerTitle E titles2 :=
    fun t1 ht1 t2 ht2 => hone t1 (hperm.subset ht1) t2 (hperm.subset ht2)
  have h12 : ∀ r ∈ new1, r ∈ new2 :=
    populate_sub E favMovie guard reason titles2 titles1 seen2 seen1 new2 new1 h2 h1
      (fun t ht => hperm.symm.subset ht) (fun x hx => (hseen x).2 hx) hone2 (by omega)
  exact (List.perm_ext_iff_of_nodup (populateSpec_nodup h2) (populateSpec_nodup h1)).2
    (fun r => ⟨h21 r, h12 r⟩)

/-- The three loops over two orderings of a pool: when no bucket reaches the cap on the
first ordering, each populated bucket holds the same items for both orderings. -/
theorem populateBuckets_perm (E : Env) (titles1 titles2 : List String) (favMovie : Movie)
    (hperm : titles2.Perm titles1) (hone : OneRecordPerTitle E titles1)
    (hcap : (populateBuckets E titles1 favMovie).genre_based.length < 15 ∧
      (populateBuckets E titles1 favMovie).director_based.length < 15 ∧
      (populateBuckets E titles1 favMovie).actor_based.length < 15) :
    (populateBuckets E titles2 favMovie).genre_based.Perm
      (populateBuckets E titles1 favMovie).genre_based ∧
    (populateBuckets E titles2 favMovie).director_based.Perm
      (populateBuckets E titles1 favMovie).director_based ∧
    (populateBuckets E titles2 favMovie).actor_based.Perm
      (populateBuckets E titles1 favMovie).actor_based := by
  obtain ⟨g1, d1, a1, heq1, hg1, hd1, ha1⟩ := populateBuckets_spec E titles1 favMovie
  obtain ⟨g2, d2, a2, heq2, hg2, hd2, ha2⟩ := populateBuckets_spec E titles2 favMovie
  rw [heq1] at hcap
  rw [heq1, heq2]
  have hg : g2.Perm g1 :=
    populate_perm E favMovie _ _ titles1 titles2 [] [] g1 g2 hg1 hg2 hperm
      (fun _ => Iff.rfl) hone hcap.1
  have hgt : ∀ x, x ∈ titlesOf g1 ↔ x ∈ titlesOf g2 :=
    fun x => ((hg.map (fun r => r.Title)).mem_iff).symm
  have hd : d2.Perm d1 :=
    populate_perm E favMovie _ _ titles1 titles2 _ _ d1 d2 hd1 hd2 hperm
      (fun x => by simp only [List.mem_reverse]; exact hgt x) hone hcap.2.1
  have hdt : ∀ x, x ∈ titlesOf d1 ↔ x ∈ titlesOf d2 :=
    fun x => ((hd.map (fun r => r.Title)).mem_iff).symm
  have ha : a2.Perm a1 :=
    populate_perm E favMovie _ _ titles1 titles2 _ _ a1 a2 ha1 ha2 hperm
      (fun x => by simp only [List.mem_append, List.mem_reverse]; rw [hgt x, hdt x])
      hone hcap.2.2
  exact ⟨hg, hd, ha⟩

theorem sortByRating_pairwise_ge {E : Env} (hsort : SortSliceSpec E.sortSlice)
    (xs : List Recommendation) (hnan : ∀ r ∈ xs, rating E r ≠ F64.nan) :
    (sortByRating E xs).Pairwise (fun a b => F64.ge (rating E a) (rating E b) = true) := by
  have hperm := sortByRating_perm hsort xs
  have hpw := (hsort (ratingLess E) xs).2 (ratingLess_strictWeakOn E xs hnan)
  refine List.Pairwise.imp_of_mem ?_ hpw
  intro a b ha hb hba
  exact F64.ge_of_not_gt (hnan a (hperm.subset ha)) (hnan b (hperm.subset hb)) hba

theorem F64.ge_antisymm {a b : F64} (hab : F64.ge a b = true) (hba : F64.ge b a = true) :
    a = b := by
  cases a <;> cases b <;> simp_all [F64.ge]
  exact le_antisymm hba hab

/-- Sort and trim of two buckets with the same items, at most 15, none rated NaN. -/
theorem finish_sameUpToTies {E : Env} (hsort : SortSliceSpec E.sortSlice)
    (xs ys : List Recommendation) (hperm : ys.Perm xs) (hlen : xs.length ≤ 15)
    (hnan : ∀ r ∈ xs, rating E r ≠ F64.nan) :
    SameUpToTies E (trim15 (sortByRating E ys)) (trim15 (sortByRating E xs)) := by
  have hpx := sortByRating_perm hsort xs
  have hpy := sortByRating_perm hsort ys
  have hnany : ∀ r ∈ ys, rating E r ≠ F64.nan := fun r hr => hnan r (hperm.subset hr)
  have htx : trim15 (sortByRating E xs) = sortByRating E xs :=
    trim15_of_le (by rw [hpx.length_eq]; exact hlen)
  have hty : trim15 (sortByRating E ys) = sortByRating E ys :=
    trim15_of_le (by rw [hpy.length_eq, hperm.length_eq]; exact hlen)
  rw [htx, hty]
  have hp : (sortByRating E ys).Perm (sortByRating E xs) := (hpy.trans hperm).trans hpx.symm
  refine ⟨hp, ?_⟩
  haveI : IsAntisymm F64 (fun a b => F64.ge a b = true) := ⟨fun _ _ => F64.ge_antisymm⟩
  refine @List.eq_of_perm_of_sorted F64 (fun a b => F64.ge a b = true) _ _ _
    (hp.map (rating E)) ?_ ?_
  · exact List.pairwise_map.2 (sortByRating_pairwise_ge hsort ys hnany)
  · exact List.pairwise_map.2 (sortByRating_pairwise_ge hsort xs hnan)

/-- A check of `OneRecordPerTitle` on the list of resolved records. -/
theorem oneRecordPerTitle_of_resolved (E : Env) (titles : List String)
    (h : ∀ m1 ∈ resolvedRecords E titles, ∀ m2 ∈ resolvedRecords E titles,
      m1.Title = m2.Title → m1 = m2) : OneRecordPerTitle E titles := by
  intro t1 ht1 t2 ht2 m1 m2 hf1 hf2 htitle
  refine h m1 ?_ m2 ?_ htitle
  · exact List.mem_filterMap.2 ⟨t1, ht1, by rw [hf1]⟩
  · exact List.mem_filterMap.2 ⟨t2, ht2, by rw [hf2]⟩

/-! ## Claims -/

/-- C1: for every environment (upstream and library), pool and reference movie, each of
the three buckets has at most 15 items right after its population loop, and again after
sort and truncation; so has every bucket of a response of `recommendMoviesHandler`. -/
theorem C1_bucket_length_le_15 (E : Env) (titles : List String) (favMovie : Movie)
    (fav : String) :
    ((populateBuckets E titles favMovie).genre_based.length ≤ 15 ∧
      (populateBuckets E titles favMovie).director_based.length ≤ 15 ∧
      (populateBuckets E titles favMovie).actor_based.length ≤ 15) ∧
    ((finishBuckets E (populateBuckets E titles favMovie)).genre_based.length ≤ 15 ∧
      (finishBuckets E (populateBuckets E titles favMovie)).director_based.length ≤ 15 ∧
      (finishBuckets E (populateBuckets E titles favMovie)).actor_based.length ≤ 15) ∧
    (recommendMoviesHandler E fav).Satisfies (fun _ b =>
      b.genre_based.length ≤ 15 ∧ b.director_based.length ≤ 15 ∧
      b.actor_based.length ≤ 15) := by
  refine ⟨populateBuckets_length E titles favMovie, ?_, ?_⟩
  · exact ⟨trim15_length _, trim15_length _, trim15_length _⟩
  · exact recommendWithPool_satisfies E getMoviePool fav _
      (fun _ => ⟨trim15_length _, trim15_length _, trim15_length _⟩)

/-- C2: when `sort.Slice` keeps its contract, the titles of all items of the genre,
director and actor buckets of one response, taken together, are pairwise distinct: for
every environment, pool and reference movie, and so for every response of
`recommendMoviesHandler`. -/
theorem C2_titles_pairwise_distinct (E : Env) (hsort : SortSliceSpec E.sortSlice)
    (titles : List String) (favMovie : Movie) (fav : String) :
    (titlesOf (finishBuckets E (populateBuckets E titles favMovie)).all).Nodup ∧
    (recommendMoviesHandler E fav).Satisfies (fun _ b => (titlesOf b.all).Nodup) :=
  ⟨finish_titles_nodup hsort _ (populateBuckets_titles_nodup E titles favMovie),
   recommendWithPool_satisfies E getMoviePool fav _ (fun favMovie =>
     finish_titles_nodup hsort _ (populateBuckets_titles_nodup E getMoviePool favMovie))⟩

/-- C2 at the pool of the program, with an upstream that resolves every title. -/
theorem C2_titles_pairwise_distinct_witness :
    SortSliceSpec echoEnv.sortSlice ∧
    (titlesOf (finishBuckets echoEnv (populateBuckets echoEnv getMoviePool echoFav)).all).Nodup ∧
    (recommendMoviesHandler echoEnv "Heat").Satisfies (fun _ b => (titlesOf b.all).Nodup) :=
  ⟨echoEnv_sort, C2_titles_pairwise_distinct echoEnv echoEnv_sort getMoviePool echoFav "Heat"⟩

/-- C3: when `sort.Slice` keeps its contract, no item of any of the three buckets has a
title equal to the title of the resolved reference movie under `strings.EqualFold`. -/
theorem C3_reference_title_excluded (E : Env) (hsort : SortSliceSpec E.sortSlice)
    (titles : List String) (favMovie : Movie) (fav : String) :
    (∀ r ∈ (finishBuckets E (populateBuckets E titles favMovie)).all,
      EqualFold E r.Title favMovie.Title = false) ∧
    (recommendMoviesHandler E fav).Satisfies (fun favorite_movie b =>
      ∀ r ∈ b.all, EqualFold E r.Title favorite_movie = false) :=
  ⟨fun r hr => populateBuckets_not_reference E titles favMovie r
      (mem_all_of_mem_finish_all hsort hr),
   recommendWithPool_satisfies E getMoviePool fav _ (fun favMovie r hr =>
     populateBuckets_not_reference E getMoviePool favMovie r
       (mem_all_of_mem_finish_all hsort hr))⟩

/-- C3 at the pool of the program with the upstream of `echoEnv`, for the reference
record titled `Heat`. -/
theorem C3_reference_title_excluded_witness :
    SortSliceSpec echoEnv.sortSlice ∧
    (∀ r ∈ (finishBuckets echoEnv (populateBuckets echoEnv getMoviePool echoFav)).all,
      EqualFold echoEnv r.Title echoFav.Title = false) ∧
    (recommendMoviesHandler echoEnv "Heat").Satisfies (fun favorite_movie b =>
      ∀ r ∈ b.all, EqualFold echoEnv r.Title favorite_movie = false) :=
  ⟨echoEnv_sort, C3_reference_title_excluded echoEnv echoEnv_sort getMoviePool echoFav "Heat"⟩

/-- C4, as stated, fails: the upstream of `nanEnv` rates the first pool title `NaN` and
the second `9.0`; both enter the genre bucket, and the response lists the item rated
NaN before the item rated 9.0, where `rating a >= rating b` is false. -/
theorem C4_counterexample :
    SortSliceSpec nanEnv.sortSlice ∧
    recommendMoviesHandler nanEnv "Heat" =
      RecommendResponse.json "Heat"
        { genre_based :=
            [{ Title := "The Shawshank Redemption", Year := "", IMDBRating := "NaN",
               Plot := "", Reason := "Same genre: Drama" },
             { Title := "The Godfather", Year := "", IMDBRating := "9.0",
               Plot := "", Reason := "Same genre: Drama" }],
          director_based := [], actor_based := [] } ∧
    ¬ (recommendMoviesHandler nanEnv "Heat").Satisfies (fun _ b =>
        NonIncreasing nanEnv b.genre_based) := by
  have h : recommendMoviesHandler nanEnv "Heat" =
      RecommendResponse.json "Heat"
        { genre_based :=
            [{ Title := "The Shawshank Redemption", Year := "", IMDBRating := "NaN",
               Plot := "", Reason := "Same genre: Drama" },
             { Title := "The Godfather", Year := "", IMDBRating := "9.0",
               Plot := "", Reason := "Same genre: Drama" }],
          director_based := [], actor_based := [] } := by
    decide!
  refine ⟨insertionSortBy_spec, h, ?_⟩
  rw [h]
  simp only [RecommendResponse.Satisfies, NonIncreasing, List.chain'_cons, List.chain'_singleton,
    and_true]
  decide!

/-- C4, amended: when `sort.Slice` keeps its contract and no populated item has a rating
text that scans to NaN, every bucket of the result is in non-increasing order of numeric
rating: for adjacent items `a` before `b`, `rating a >= rating b`. A rating text that does
not scan counts as 0. -/
theorem C4_sorted_by_rating (E : Env) (hsort : SortSliceSpec E.sortSlice)
    (titles : List String) (favMovie : Movie)
    (hnan : ∀ r ∈ (populateBuckets E titles favMovie).all, rating E r ≠ F64.nan) :
    (NonIncreasing E (finishBuckets E (populateBuckets E titles favMovie)).genre_based ∧
      NonIncreasing E (finishBuckets E (populateBuckets E titles favMovie)).director_based ∧
      NonIncreasing E (finishBuckets E (populateBuckets E titles favMovie)).actor_based) ∧
    (∀ r : Recommendation, E.sscanFloat r.IMDBRating = none → rating E r = F64.fin 0) := by
  refine ⟨⟨?_, ?_, ?_⟩, ?_⟩
  · exact finish_nonIncreasing hsort _ (fun r hr => hnan r (by simp [Buckets.all, hr]))
  · exact finish_nonIncreasing hsort _ (fun r hr => hnan r (by simp [Buckets.all, hr]))
  · exact finish_nonIncreasing hsort _ (fun r hr => hnan r (by simp [Buckets.all, hr]))
  · intro r hr
    simp [rating, parseRating, hr]

/-- C4 amended, at the pool of the program with an upstream that rates titles 9.0 or
7.0. -/
theorem C4_sorted_by_rating_witness :
    SortSliceSpec echoEnv.sortSlice ∧
    (∀ r ∈ (populateBuckets echoEnv getMoviePool echoFav).all, rating echoEnv r ≠ F64.nan) ∧
    ((NonIncreasing echoEnv
        (finishBuckets echoEnv (populateBuckets echoEnv getMoviePool echoFav)).genre_based ∧
      NonIncreasing echoEnv
        (finishBuckets echoEnv (populateBuckets echoEnv getMoviePool echoFav)).director_based ∧
      NonIncreasing echoEnv
        (finishBuckets echoEnv (populateBuckets echoEnv getMoviePool echoFav)).actor_based) ∧
    (∀ r : Recommendation, echoEnv.sscanFloat r.IMDBRating = none →
      rating echoEnv r = F64.fin 0)) :=
  have h : ∀ r ∈ (populateBuckets echoEnv getMoviePool echoFav).all,
      rating echoEnv r ≠ F64.nan := by decide!
  ⟨echoEnv_sort, h, C4_sorted_by_rating echoEnv echoEnv_sort getMoviePool echoFav h⟩

/-- C5, as stated, fails. In `tieEnv`, where `sort.Slice` is the sort of the Go library
from release 1.19 on, the genre bucket is populated with thirteen items: twelve rated
7.0, `The Shawshank Redemption` first of them, then `The Green Mile` rated 9.0. The
partition step exchanges the first item with the pivot (`Forrest Gump`, the seventh), and
in the bucket of the response `Forrest Gump` stands before `The Shawshank Redemption`,
both rated 7.0. The result is a rearrangement in non-increasing order of rating; it is not
stable. -/
theorem C5_counterexample :
    recommendMoviesHandler tieEnv "Heat" =
      RecommendResponse.json "Heat"
        (finishBuckets tieEnv (populateBuckets tieEnv getMoviePool heatMovie)) ∧
    (populateBuckets tieEnv getMoviePool heatMovie).genre_based.map
        (fun r => (r.Title, r.IMDBRating)) =
      [("The Shawshank Redemption", "7.0"), ("The Godfather", "7.0"),
       ("The Dark Knight", "7.0"), ("The Godfather Part II", "7.0"),
       ("Pulp Fiction", "7.0"), ("Fight Club", "7.0"), ("Forrest Gump", "7.0"),
       ("The Lord of the Rings: The Return of the King", "7.0"), ("The Matrix", "7.0"),
       ("Goodfellas", "7.0"), ("Inglourious Basterds", "7.0"), ("Interstellar", "7.0"),
       ("The Green Mile", "9.0")] ∧
    titlesOf (finishBuckets tieEnv (populateBuckets tieEnv getMoviePool heatMovie)).genre_based =
      ["The Green Mile", "Forrest Gump", "The Dark Knight", "The Godfather Part II",
       "Pulp Fiction", "Fight Club", "The Shawshank Redemption",
       "The Lord of the Rings: The Return of the King", "The Matrix", "Goodfellas",
       "Inglourious Basterds", "Interstellar", "The Godfather"] ∧
    NonIncreasing tieEnv
      (finishBuckets tieEnv (populateBuckets tieEnv getMoviePool heatMovie)).genre_based ∧
    ¬ StableWrt tieEnv (populateBuckets tieEnv getMoviePool heatMovie).genre_based
        (finishBuckets tieEnv (populateBuckets tieEnv getMoviePool heatMovie)).genre_based := by
  refine ⟨by decide!, by decide!, by decide!, ?_, ?_⟩
  · have hpw : (finishBuckets tieEnv
        (populateBuckets tieEnv getMoviePool heatMovie)).genre_based.Pairwise
        (fun a b => F64.ge (rating tieEnv a) (rating tieEnv b) = true) := by decide!
    exact hpw.chain'
  · intro hstable
    have h := hstable
      { Title := "The Shawshank Redemption", Year := "", IMDBRating := "7.0", Plot := "",
        Reason := "Same genre: Drama" }
      { Title := "Forrest Gump", Year := "", IMDBRating := "7.0", Plot := "",
        Reason := "Same genre: Drama" }
      (by decide!) (by decide!)
    revert h
    decide!

/-- C5, amended: when `sort.Slice` keeps its contract and no populated item has a rating
text that scans to NaN, each bucket of the result holds the items of the populated
bucket, and of two items the one with the strictly greater numeric rating comes first.
The order of items with equal rating is not determined. -/
theorem C5_order_by_rating_only (E : Env) (hsort : SortSliceSpec E.sortSlice)
    (titles : List String) (favMovie : Movie)
    (hnan : ∀ r ∈ (populateBuckets E titles favMovie).all, rating E r ≠ F64.nan) :
    OrderedByRating E (populateBuckets E titles favMovie).genre_based
      (finishBuckets E (populateBuckets E titles favMovie)).genre_based ∧
    OrderedByRating E (populateBuckets E titles favMovie).director_based
      (finishBuckets E (populateBuckets E titles favMovie)).director_based ∧
    OrderedByRating E (populateBuckets E titles favMovie).actor_based
      (finishBuckets E (populateBuckets E titles favMovie)).actor_based := by
  obtain ⟨h1, h2, h3⟩ := populateBuckets_length E titles favMovie
  refine ⟨?_, ?_, ?_⟩
  · exact finish_orderedByRating hsort _ h1 (fun r hr => hnan r (by simp [Buckets.all, hr]))
  · exact finish_orderedByRating hsort _ h2 (fun r hr => hnan r (by simp [Buckets.all, hr]))
  · exact finish_orderedByRating hsort _ h3 (fun r hr => hnan r (by simp [Buckets.all, hr]))

/-- C5 amended, at the pool of the program with an upstream that rates titles 9.0 or
7.0. -/
theorem C5_order_by_rating_only_witness :
    SortSliceSpec echoEnv.sortSlice ∧
    (∀ r ∈ (populateBuckets echoEnv getMoviePool echoFav).all, rating echoEnv r ≠ F64.nan) ∧
    (OrderedByRating echoEnv (populateBuckets echoEnv getMoviePool echoFav).genre_based
      (finishBuckets echoEnv (populateBuckets echoEnv getMoviePool echoFav)).genre_based ∧
    OrderedByRating echoEnv (populateBuckets echoEnv getMoviePool echoFav).director_based
      (finishBuckets echoEnv (populateBuckets echoEnv getMoviePool echoFav)).director_based ∧
    OrderedByRating echoEnv (populateBuckets echoEnv getMoviePool echoFav).actor_based
      (finishBuckets echoEnv (populateBuckets echoEnv getMoviePool echoFav)).actor_based) :=
  have h : ∀ r ∈ (populateBuckets echoEnv getMoviePool echoFav).all,
      rating echoEnv r ≠ F64.nan := by decide!
  ⟨echoEnv_sort, h, C5_order_by_rating_only echoEnv echoEnv_sort getMoviePool echoFav h⟩

/-- C6, as stated, fails: with the upstream of `echoEnv` every pool title passes the
tests of the genre loop and of the director loop; the genre bucket is full after the
first 15 pool titles, and the sixteenth, `The Prestige`, is an item of the director
bucket of the response and not of the genre bucket. -/
theorem C6_counterexample :
    SortSliceSpec echoEnv.sortSlice ∧
    "The Prestige" ∈ getMoviePool ∧
    MatchesGenreAndDirector echoEnv echoFav "The Prestige"
      (mkMovie "The Prestige" "Drama" "X" "A" "9.0") ∧
    recommendMoviesHandler echoEnv "Heat" =
      RecommendResponse.json "Heat"
        (finishBuckets echoEnv (populateBuckets echoEnv getMoviePool echoFav)) ∧
    "The Prestige" ∈
      titlesOf (finishBuckets echoEnv (populateBuckets echoEnv getMoviePool echoFav)).director_based ∧
    "The Prestige" ∉
      titlesOf (finishBuckets echoEnv (populateBuckets echoEnv getMoviePool echoFav)).genre_based := by
  refine ⟨insertionSortBy_spec, by decide!, ⟨rfl, by decide!, ?_, by decide!⟩,
    by decide!, by decide!, by decide!⟩
  exact ⟨"Drama", by decide!, by decide!⟩

/-- C6, amended: when `sort.Slice` keeps its contract and the genre bucket holds fewer
than 15 items after its population loop, a pool candidate that resolves, is not the
reference title, has a genre field containing one of the reference genres and has the
director of the reference has its title in the genre bucket of the result and in no item
of the director bucket. -/
theorem C6_genre_before_director (E : Env) (hsort : SortSliceSpec E.sortSlice)
    (titles : List String) (favMovie : Movie) (t : String) (m : Movie)
    (ht : t ∈ titles) (hm : MatchesGenreAndDirector E favMovie t m)
    (hcap : (populateBuckets E titles favMovie).genre_based.length < 15) :
    m.Title ∈ titlesOf (finishBuckets E (populateBuckets E titles favMovie)).genre_based ∧
    m.Title ∉ titlesOf (finishBuckets E (populateBuckets E titles favMovie)).director_based := by
  obtain ⟨hf, hfold, hgenre, _⟩ := hm
  have hpop := genre_bucket_complete E titles favMovie hcap t ht m hf hfold hgenre
  have hperm := sortByRating_perm hsort (populateBuckets E titles favMovie).genre_based
  have htrim : trim15 (sortByRating E (populateBuckets E titles favMovie).genre_based) =
      sortByRating E (populateBuckets E titles favMovie).genre_based :=
    trim15_of_le (by rw [hperm.length_eq]; omega)
  have hgenreFinal :
      m.Title ∈ titlesOf (finishBuckets E (populateBuckets E titles favMovie)).genre_based := by
    show m.Title ∈ titlesOf (trim15 (sortByRating E _))
    rw [htrim]
    exact (hperm.map _).symm.subset hpop
  refine ⟨hgenreFinal, ?_⟩
  intro hdir
  have hnodup := finish_titles_nodup hsort _ (populateBuckets_titles_nodup E titles favMovie)
  simp only [Buckets.all, titlesOf_append] at hnodup
  have hdisj := (List.nodup_append.1 (List.nodup_append.1 hnodup).1).2.2
  exact hdisj hgenreFinal hdir

/-- C6 amended, at the pool of the program: `The Prestige` shares genre Drama and the
director with the reference `The Dark Knight`, and the genre bucket stays below 15. -/
theorem C6_genre_before_director_witness :
    SortSliceSpec knightEnv.sortSlice ∧
    "The Prestige" ∈ getMoviePool ∧
    MatchesGenreAndDirector knightEnv darkKnight "The Prestige"
      (mkMovie "The Prestige" "Drama, Mystery, Sci-Fi" "Christopher Nolan"
        "Christian Bale, Hugh Jackman, Scarlett Johansson" "8.5") ∧
    (populateBuckets knightEnv getMoviePool darkKnight).genre_based.length < 15 ∧
    "The Prestige" ∈
      titlesOf (finishBuckets knightEnv (populateBuckets knightEnv getMoviePool darkKnight)).genre_based ∧
    "The Prestige" ∉
      titlesOf (finishBuckets knightEnv (populateBuckets knightEnv getMoviePool darkKnight)).director_based :=
  have hm : MatchesGenreAndDirector knightEnv darkKnight "The Prestige"
      (mkMovie "The Prestige" "Drama, Mystery, Sci-Fi" "Christopher Nolan"
        "Christian Bale, Hugh Jackman, Scarlett Johansson" "8.5") :=
    ⟨rfl, by decide!, ⟨"Drama", by decide!, by decide!⟩, by decide!⟩
  have ht : "The Prestige" ∈ getMoviePool := by decide!
  have hcap : (populateBuckets knightEnv getMoviePool darkKnight).genre_based.length < 15 := by
    decide!
  ⟨knightEnv_sort, ht, hm, hcap,
    C6_genre_before_director knightEnv knightEnv_sort getMoviePool darkKnight "The Prestige"
      _ ht hm hcap⟩

/-- C7 fails on the code: the reference `Untitled` resolves to a record with empty genre,
director and actors fields, yet the genre bucket of the response holds every other record
the upstream knows, each with the reason `Same genre: ` followed by nothing:
`strings.Split` of the empty string is one empty genre, which every genre field
contains. -/
theorem C7_empty_reference_fills_genre_bucket :
    fetchFromOMDb blankEnv ("t=" ++ blankEnv.queryEscape "Untitled") = .ok blankMovie ∧
    blankMovie.Genre = "" ∧ blankMovie.Director = "" ∧ blankMovie.Actors = "" ∧
    Split "" = [""] ∧
    (∀ r ∈ (populateBuckets blankEnv getMoviePool blankMovie).genre_based,
      r.Reason = "Same genre: ") ∧
    (recommendMoviesHandler blankEnv "Untitled").buckets.map
        (fun b => titlesOf b.genre_based) =
      some ["The Dark Knight", "The Prestige", "The Lion King", "Memento", "Batman Begins",
        "American Hustle", "Joy"] := by
  refine ⟨rfl, rfl, rfl, rfl, by decide!, by decide!, by decide!⟩

/-- C8, as stated, fails: `seenAll` is keyed by the title as received. The upstream of
`caseEnv` answers two pool titles with records titled `Twin` and `TWIN`; the two titles
are equal under `strings.EqualFold`, and both are items of the genre bucket of the
response. -/
theorem C8_counterexample :
    SortSliceSpec caseEnv.sortSlice ∧
    EqualFold caseEnv "Twin" "TWIN" = true ∧
    (recommendMoviesHandler caseEnv "Heat").buckets.map (fun b => titlesOf b.genre_based) =
      some ["Twin", "TWIN"] := by
  refine ⟨insertionSortBy_spec, by decide!, by decide!⟩

/-- C8, amended: `seenAll` is keyed by the exact title. In each of the three loops a
candidate whose resolved title is a key of `seenAll` is skipped: bucket and `seenAll`
stay as they are; and, when `sort.Slice` keeps its contract, no two items anywhere in the
three buckets of the result have the same title. Titles that differ in letter case only
are different keys. -/
theorem C8_seen_set_exact_titles (E : Env) (hsort : SortSliceSpec E.sortSlice)
    (titles : List String) (favMovie : Movie) :
    (∀ (guard : Movie → Bool) (reason : Movie → Option String) (t : String)
        (ts : List String) (recs : List Recommendation) (seenAll : List String) (m : Movie),
      fetchFromOMDb E ("t=" ++ E.queryEscape t) = .ok m → m.Title ∈ seenAll →
      populate E favMovie guard reason (t :: ts) (recs, seenAll) =
        populate E favMovie guard reason ts (recs, seenAll)) ∧
    (finishBuckets E (populateBuckets E titles favMovie)).all.Pairwise
      (fun a b => a.Title ≠ b.Title) := by
  refine ⟨fun guard reason t ts recs seenAll m hf hseen =>
    populate_skip_seen E favMovie guard reason t ts recs seenAll m hf hseen, ?_⟩
  have hnodup := finish_titles_nodup hsort _ (populateBuckets_titles_nodup E titles favMovie)
  unfold titlesOf at hnodup
  exact (List.pairwise_map.1 hnodup)

/-- C8 amended, at the pool of the program and the upstream of `caseEnv`. -/
theorem C8_seen_set_exact_titles_witness :
    SortSliceSpec caseEnv.sortSlice ∧
    (∀ (guard : Movie → Bool) (reason : Movie → Option String) (t : String)
        (ts : List String) (recs : List Recommendation) (seenAll : List String) (m : Movie),
      fetchFromOMDb caseEnv ("t=" ++ caseEnv.queryEscape t) = .ok m → m.Title ∈ seenAll →
      populate caseEnv heatMovie guard reason (t :: ts) (recs, seenAll) =
        populate caseEnv heatMovie guard reason ts (recs, seenAll)) ∧
    (finishBuckets caseEnv (populateBuckets caseEnv getMoviePool heatMovie)).all.Pairwise
      (fun a b => a.Title ≠ b.Title) :=
  ⟨caseEnv_sort, C8_seen_set_exact_titles caseEnv caseEnv_sort getMoviePool heatMovie⟩

/-- C9, as stated, fails: with the upstream of `echoEnv` every pool title qualifies for
the genre bucket, which takes the first 15 in pool order; for the pool and the reversed
pool the genre buckets of the responses hold different items: `The Shawshank Redemption`,
first of the pool, is in the one and not in the other. -/
theorem C9_counterexample :
    SortSliceSpec echoEnv.sortSlice ∧
    getMoviePool.reverse.Perm getMoviePool ∧
    recommendWithPool echoEnv getMoviePool "Heat" =
      RecommendResponse.json "Heat"
        (finishBuckets echoEnv (populateBuckets echoEnv getMoviePool echoFav)) ∧
    recommendWithPool echoEnv getMoviePool.reverse "Heat" =
      RecommendResponse.json "Heat"
        (finishBuckets echoEnv (populateBuckets echoEnv getMoviePool.reverse echoFav)) ∧
    "The Shawshank Redemption" ∈
      titlesOf (finishBuckets echoEnv (populateBuckets echoEnv getMoviePool echoFav)).genre_based ∧
    "The Shawshank Redemption" ∉
      titlesOf (finishBuckets echoEnv
        (populateBuckets echoEnv getMoviePool.reverse echoFav)).genre_based := by
  refine ⟨insertionSortBy_spec, List.reverse_perm _, by decide!, by decide!, by decide!,
    by decide!⟩

/-- C9, amended: for two orderings of the same pool, when `sort.Slice` keeps its
contract, the upstream gives one record per title, no populated bucket of the first
ordering reaches 15 items and none of its items has a rating that scans to NaN, each of
the three buckets of the result holds the same items for both orderings, with the same
sequence of numeric ratings: the orderings differ at most in the order of items with
equal rating. -/
theorem C9_pool_order_breaks_ties_only (E : Env) (hsort : SortSliceSpec E.sortSlice)
    (titles titles2 : List String) (favMovie : Movie)
    (hperm : titles2.Perm titles) (hone : OneRecordPerTitle E titles)
    (hcap : (populateBuckets E titles favMovie).genre_based.length < 15 ∧
      (populateBuckets E titles favMovie).director_based.length < 15 ∧
      (populateBuckets E titles favMovie).actor_based.length < 15)
    (hnan : ∀ r ∈ (populateBuckets E titles favMovie).all, rating E r ≠ F64.nan) :
    SameUpToTies E (finishBuckets E (populateBuckets E titles2 favMovie)).genre_based
      (finishBuckets E (populateBuckets E titles favMovie)).genre_based ∧
    SameUpToTies E (finishBuckets E (populateBuckets E titles2 favMovie)).director_based
      (finishBuckets E (populateBuckets E titles favMovie)).director_based ∧
    SameUpToTies E (finishBuckets E (populateBuckets E titles2 favMovie)).actor_based
      (finishBuckets E (populateBuckets E titles favMovie)).actor_based := by
  obtain ⟨hg, hd, ha⟩ := populateBuckets_perm E titles titles2 favMovie hperm hone hcap
  refine ⟨?_, ?_, ?_⟩
  · exact finish_sameUpToTies hsort _ _ hg (by omega)
      (fun r hr => hnan r (by simp [Buckets.all, hr]))
  · exact finish_sameUpToTies hsort _ _ hd (by omega)
      (fun r hr => hnan r (by simp [Buckets.all, hr]))
  · exact finish_sameUpToTies hsort _ _ ha (by omega)
      (fun r hr => hnan r (by simp [Buckets.all, hr]))

/-- C9 amended, at the pool of the program and its reverse, with the upstream of
`knightEnv`. -/
theorem C9_pool_order_breaks_ties_only_witness :
    SortSliceSpec knightEnv.sortSlice ∧
    getMoviePool.reverse.Perm getMoviePool ∧
    OneRecordPerTitle knightEnv getMoviePool ∧
    ((populateBuckets knightEnv getMoviePool darkKnight).genre_based.length < 15 ∧
      (populateBuckets knightEnv getMoviePool darkKnight).director_based.length < 15 ∧
      (populateBuckets knightEnv getMoviePool darkKnight).actor_based.length < 15) ∧
    (∀ r ∈ (populateBuckets knightEnv getMoviePool darkKnight).all,
      rating knightEnv r ≠ F64.nan) ∧
    (SameUpToTies knightEnv
      (finishBuckets knightEnv (populateBuckets knightEnv getMoviePool.reverse darkKnight)).genre_based
      (finishBuckets knightEnv (populateBuckets knightEnv getMoviePool darkKnight)).genre_based ∧
    SameUpToTies knightEnv
      (finishBuckets knightEnv (populateBuckets knightEnv getMoviePool.reverse darkKnight)).director_based
      (finishBuckets knightEnv (populateBuckets knightEnv getMoviePool darkKnight)).director_based ∧
    SameUpToTies knightEnv
      (finishBuckets knightEnv (populateBuckets knightEnv getMoviePool.reverse darkKnight)).actor_based
      (finishBuckets knightEnv (populateBuckets knightEnv getMoviePool darkKnight)).actor_based) :=
  have hperm : getMoviePool.reverse.Perm getMoviePool := List.reverse_perm _
  have hone : OneRecordPerTitle knightEnv getMoviePool :=
    oneRecordPerTitle_of_resolved knightEnv getMoviePool (by decide!)
  have hcap : (populateBuckets knightEnv getMoviePool darkKnight).genre_based.length < 15 ∧
      (populateBuckets knightEnv getMoviePool darkKnight).director_based.length < 15 ∧
      (populateBuckets knightEnv getMoviePool darkKnight).actor_based.length < 15 := by
    decide!
  have hnan : ∀ r ∈ (populateBuckets knightEnv getMoviePool darkKnight).all,
      rating knightEnv r ≠ F64.nan := by decide!
  ⟨knightEnv_sort, hperm, hone, hcap, hnan,
    C9_pool_order_breaks_ties_only knightEnv knightEnv_sort getMoviePool getMoviePool.reverse
      darkKnight hperm hone hcap hnan⟩

/-- C10: when the lookup of the reference title fails with message `err`, the handler
answers with status 404 and body `err` and sends no envelope, whatever the pool and
whatever the pool titles would resolve to. -/
theorem C10_reference_lookup_failure (E : Env) (titles : List String) (fav err : String)
    (hfav : fav ≠ "")
    (hfail : fetchFromOMDb E ("t=" ++ E.queryEscape fav) = .error err) :
    recommendMoviesHandler E fav = RecommendResponse.httpError err 404 ∧
    recommendWithPool E titles fav = RecommendResponse.httpError err 404 ∧
    (recommendMoviesHandler E fav).buckets = none := by
  have h : ∀ pool, recommendWithPool E pool fav = RecommendResponse.httpError err 404 := by
    intro pool
    unfold recommendWithPool
    rw [if_neg hfav, hfail]
  refine ⟨h _, h _, ?_⟩
  unfold recommendMoviesHandler
  rw [h]
  rfl

/-- C10 at a title the upstream of `knightEnv` reports as not found. -/
theorem C10_reference_lookup_failure_witness :
    "Nonexistent" ≠ "" ∧
    fetchFromOMDb knightEnv ("t=" ++ knightEnv.queryEscape "Nonexistent") =
      .error "Movie not found!" ∧
    (recommendMoviesHandler knightEnv "Nonexistent" =
      RecommendResponse.httpError "Movie not found!" 404 ∧
    recommendWithPool knightEnv getMoviePool "Nonexistent" =
      RecommendResponse.httpError "Movie not found!" 404 ∧
    (recommendMoviesHandler knightEnv "Nonexistent").buckets = none) :=
  ⟨by decide, rfl,
    C10_reference_lookup_failure knightEnv getMoviePool "Nonexistent" "Movie not found!"
      (by decide) rfl⟩

/-! ## Season details -/

theorem enrichEpisodes_eq (E : Env) (episodes : List EpisodeBrief) :
    ∀ enrichedEpisodes : List EpisodeFull,
      enrichEpisodes E episodes enrichedEpisodes =
        enrichedEpisodes ++ episodes.map (enrichEpisode E) := by
  induction episodes with
  | nil => intro acc; simp [enrichEpisodes]
  | cons ep rest ih =>
    intro acc
    simp [enrichEpisodes, ih]

/-- The response of `seasonDetailsHandler` once series and season are resolved. -/
theorem seasonDetailsHandler_ok (E : Env) (series season : String)
    (seriesData : Movie) (seasonData : Season)
    (hseries : series ≠ "") (hseason : season ≠ "")
    (hs : fetchFromOMDb E ("t=" ++ E.queryEscape series ++ "&type=series") = .ok seriesData)
    (hl : fetchSeasonFromOMDb E ("i=" ++ seriesData.IMDBID ++ "&Season=" ++ season) =
      .ok seasonData) :
    seasonDetailsHandler E series season =
      .json { Series := seriesData.Title, Season := seasonData.Season,
              Episodes := seasonData.Episodes.map (enrichEpisode E) } := by
  unfold seasonDetailsHandler
  rw [if_neg (by simp [hseries, hseason]), hs]
  simp only [hl, enrichEpisodes_eq, List.nil_append]

/-- C13: once the series and the season listing are resolved, every episode brief of the
listing whose lookup by imdbID fails is kept in the output, at its position, with Plot
`Plot not available` and with the Title, Released, Episode, imdbRating and imdbID of the
brief. -/
theorem C13_failed_episode_lookup_keeps_brief (E : Env) (series season : String)
    (seriesData : Movie) (seasonData : Season)
    (hseries : series ≠ "") (hseason : season ≠ "")
    (hs : fetchFromOMDb E ("t=" ++ E.queryEscape series ++ "&type=series") = .ok seriesData)
    (hl : fetchSeasonFromOMDb E ("i=" ++ seriesData.IMDBID ++ "&Season=" ++ season) =
      .ok seasonData) :
    ∃ out, seasonDetailsHandler E series season = .json out ∧
      ∀ (i : Nat) (ep : EpisodeBrief) (err : String),
        seasonData.Episodes[i]? = some ep →
        fetchFromOMDb E ("i=" ++ ep.IMDBID) = .error err →
        out.Episodes[i]? =
          some { Title := ep.Title, Released := ep.Released, Episode := ep.Episode,
                 IMDBRating := ep.IMDBRating, IMDBID := ep.IMDBID,
                 Plot := "Plot not available" } := by
  refine ⟨_, seasonDetailsHandler_ok E series season seriesData seasonData hseries hseason
    hs hl, ?_⟩
  intro i ep err hi hfail
  simp only [List.getElem?_map, hi, Option.map_some', enrichEpisode, hfail]

/-- C13 on the first season of `seasonEnv`, whose second episode has no detail record. -/
theorem C13_failed_episode_lookup_keeps_brief_witness :
    "Breaking Bad" ≠ "" ∧ "1" ≠ "" ∧
    fetchFromOMDb seasonEnv ("t=" ++ seasonEnv.queryEscape "Breaking Bad" ++ "&type=series") =
      .ok breakingBad ∧
    fetchSeasonFromOMDb seasonEnv ("i=" ++ breakingBad.IMDBID ++ "&Season=" ++ "1") =
      .ok pilotSeason ∧
    pilotSeason.Episodes[1]? =
      some { Title := "Cat's in the Bag...", Released := "2008-01-27", Episode := "2",
             IMDBRating := "8.5", IMDBID := "tt1054724" } ∧
    fetchFromOMDb seasonEnv ("i=" ++ "tt1054724") = .error "Incorrect IMDb ID." ∧
    ∃ out, seasonDetailsHandler seasonEnv "Breaking Bad" "1" = .json out ∧
      ∀ (i : Nat) (ep : EpisodeBrief) (err : String),
        pilotSeason.Episodes[i]? = some ep →
        fetchFromOMDb seasonEnv ("i=" ++ ep.IMDBID) = .error err →
        out.Episodes[i]? =
          some { Title := ep.Title, Released := ep.Released, Episode := ep.Episode,
                 IMDBRating := ep.IMDBRating, IMDBID := ep.IMDBID,
                 Plot := "Plot not available" } :=
  ⟨by decide, by decide, rfl, rfl, rfl, rfl,
    C13_failed_episode_lookup_keeps_brief seasonEnv "Breaking Bad" "1" breakingBad pilotSeason
      (by decide) (by decide) rfl rfl⟩

/-- C16: each of the six handlers answers with status 400 as soon as one of its required
query parameters is empty (an absent parameter reads as empty), whatever the upstream
and the other parameters are; `movieDetailsHandler` with an empty title answers 400 with
body `Missing title query parameter`. -/
theorem C16_missing_parameter_400 (E : Env) :
    movieDetailsHandler E "" =
      HandlerResponse.httpError "Missing title query parameter" 400 ∧
    (∀ series season episode : String, series = "" ∨ season = "" ∨ episode = "" →
      episodeDetailsHandler E series season episode =
        HandlerResponse.httpError "Missing required query parameters" 400) ∧
    recommendMoviesHandler E "" =
      RecommendResponse.httpError "Missing favorite_movie query parameter" 400 ∧
    genreTopMoviesHandler E "" =
      HandlerResponse.httpError "Missing genre query parameter" 400 ∧
    seriesDetailsHandler E "" =
      HandlerResponse.httpError "Missing title query parameter" 400 ∧
    (∀ series season : String, series = "" ∨ season = "" →
      seasonDetailsHandler E series season =
        HandlerResponse.httpError "Missing required query parameters" 400) := by
  refine ⟨?_, ?_, ?_, ?_, ?_, ?_⟩
  · simp [movieDetailsHandler]
  · intro series season episode h
    unfold episodeDetailsHandler
    rw [if_pos h]
  · simp [recommendMoviesHandler, recommendWithPool]
  · simp [genreTopMoviesHandler, genreTopWithPool]
  · simp [seriesDetailsHandler]
  · intro series season h
    unfold seasonDetailsHandler
    rw [if_pos h]

/-- C17: every item of the director bucket, after population and (when `sort.Slice`
keeps its contract) in the result, comes from a pool title that resolved to a record
whose trimmed director equals the trimmed reference director under `strings.EqualFold`,
and its reason is `Same director: ` followed by the reference director as received. -/
theorem C17_director_bucket_items (E : Env) (hsort : SortSliceSpec E.sortSlice)
    (titles : List String) (favMovie : Movie) :
    (∀ r ∈ (populateBuckets E titles favMovie).director_based,
      ∃ t ∈ titles, ∃ m, fetchFromOMDb E ("t=" ++ E.queryEscape t) = .ok m ∧
        EqualFold E (TrimSpace E m.Director) (TrimSpace E favMovie.Director) = true ∧
        r = mkRecommendation m ("Same director: " ++ favMovie.Director)) ∧
    (∀ r ∈ (finishBuckets E (populateBuckets E titles favMovie)).director_based,
      r.Reason = "Same director: " ++ favMovie.Director ∧
      ∃ t ∈ titles, ∃ m, fetchFromOMDb E ("t=" ++ E.queryEscape t) = .ok m ∧
        EqualFold E (TrimSpace E m.Director) (TrimSpace E favMovie.Director) = true ∧
        r = mkRecommendation m ("Same director: " ++ favMovie.Director)) := by
  obtain ⟨g, d, a, heq, _, hd, _⟩ := populateBuckets_spec E titles favMovie
  have hpop : ∀ r ∈ (populateBuckets E titles favMovie).director_based,
      ∃ t ∈ titles, ∃ m, fetchFromOMDb E ("t=" ++ E.queryEscape t) = .ok m ∧
        EqualFold E (TrimSpace E m.Director) (TrimSpace E favMovie.Director) = true ∧
        r = mkRecommendation m ("Same director: " ++ favMovie.Director) := by
    intro r hr
    rw [heq] at hr
    obtain ⟨t, ht, m, why, hf, _, hguard, hwhy, hrm⟩ := hd.origin r hr
    cases hwhy
    exact ⟨t, ht, m, hf, hguard, hrm⟩
  refine ⟨hpop, ?_⟩
  intro r hr
  have hmem := hpop r (mem_of_mem_finish hsort hr)
  obtain ⟨t, ht, m, hf, hguard, hrm⟩ := hmem
  exact ⟨by rw [hrm]; rfl, t, ht, m, hf, hguard, hrm⟩

/-- C17 at the pool of the program with the upstream of `knightEnv`. -/
theorem C17_director_bucket_items_witness :
    SortSliceSpec knightEnv.sortSlice ∧
    ((∀ r ∈ (populateBuckets knightEnv getMoviePool darkKnight).director_based,
      ∃ t ∈ getMoviePool, ∃ m,
        fetchFromOMDb knightEnv ("t=" ++ knightEnv.queryEscape t) = .ok m ∧
        EqualFold knightEnv (TrimSpace knightEnv m.Director)
          (TrimSpace knightEnv darkKnight.Director) = true ∧
        r = mkRecommendation m ("Same director: " ++ darkKnight.Director)) ∧
    (∀ r ∈ (finishBuckets knightEnv
        (populateBuckets knightEnv getMoviePool darkKnight)).director_based,
      r.Reason = "Same director: " ++ darkKnight.Director ∧
      ∃ t ∈ getMoviePool, ∃ m,
        fetchFromOMDb knightEnv ("t=" ++ knightEnv.queryEscape t) = .ok m ∧
        EqualFold knightEnv (TrimSpace knightEnv m.Director)
          (TrimSpace knightEnv darkKnight.Director) = true ∧
        r = mkRecommendation m ("Same director: " ++ darkKnight.Director))) :=
  ⟨knightEnv_sort, C17_director_bucket_items knightEnv knightEnv_sort getMoviePool darkKnight⟩

/-- C18: once the series and the season listing are resolved, the Episodes list of the
response has the length of the listing, and its i-th element carries the Released,
Episode and imdbID of the i-th brief whether the detail lookup succeeded or not; when it
succeeded, Title, imdbRating and Plot are those of the detail record. -/
theorem C18_episodes_follow_listing (E : Env) (series season : String)
    (seriesData : Movie) (seasonData : Season)
    (hseries : series ≠ "") (hseason : season ≠ "")
    (hs : fetchFromOMDb E ("t=" ++ E.queryEscape series ++ "&type=series") = .ok seriesData)
    (hl : fetchSeasonFromOMDb E ("i=" ++ seriesData.IMDBID ++ "&Season=" ++ season) =
      .ok seasonData) :
    ∃ out, seasonDetailsHandler E series season = .json out ∧
      out.Episodes.length = seasonData.Episodes.length ∧
      ∀ (i : Nat) (ep : EpisodeBrief), seasonData.Episodes[i]? = some ep →
        ∃ full, out.Episodes[i]? = some full ∧
          full.Released = ep.Released ∧ full.Episode = ep.Episode ∧
          full.IMDBID = ep.IMDBID ∧
          ∀ details, fetchFromOMDb E ("i=" ++ ep.IMDBID) = .ok details →
            full.Title = details.Title ∧ full.IMDBRating = details.IMDBRating ∧
            full.Plot = details.Plot := by
  refine ⟨_, seasonDetailsHandler_ok E series season seriesData seasonData hseries hseason
    hs hl, by simp, ?_⟩
  intro i ep hi
  refine ⟨enrichEpisode E ep, by simp [hi], ?_⟩
  unfold enrichEpisode
  cases hf : fetchFromOMDb E ("i=" ++ ep.IMDBID) with
  | error e => exact ⟨rfl, rfl, rfl, fun _ h => by cases h⟩
  | ok d => exact ⟨rfl, rfl, rfl, fun details h => by cases h; exact ⟨rfl, rfl, rfl⟩⟩

/-- C18 on the first season of `seasonEnv`. -/
theorem C18_episodes_follow_listing_witness :
    "Breaking Bad" ≠ "" ∧ "1" ≠ "" ∧
    fetchFromOMDb seasonEnv ("t=" ++ seasonEnv.queryEscape "Breaking Bad" ++ "&type=series") =
      .ok breakingBad ∧
    fetchSeasonFromOMDb seasonEnv ("i=" ++ breakingBad.IMDBID ++ "&Season=" ++ "1") =
      .ok pilotSeason ∧
    ∃ out, seasonDetailsHandler seasonEnv "Breaking Bad" "1" = .json out ∧
      out.Episodes.length = pilotSeason.Episodes.length ∧
      ∀ (i : Nat) (ep : EpisodeBrief), pilotSeason.Episodes[i]? = some ep →
        ∃ full, out.Episodes[i]? = some full ∧
          full.Released = ep.Released ∧ full.Episode = ep.Episode ∧
          full.IMDBID = ep.IMDBID ∧
          ∀ details, fetchFromOMDb seasonEnv ("i=" ++ ep.IMDBID) = .ok details →
            full.Title = details.Title ∧ full.IMDBRating = details.IMDBRating ∧
            full.Plot = details.Plot :=
  ⟨by decide, by decide, rfl, rfl,
    C18_episodes_follow_listing seasonEnv "Breaking Bad" "1" breakingBad pilotSeason
      (by decide) (by decide) rfl rfl⟩

/-- C19: when `sort.Slice` keeps its contract, each bucket of the result is a
permutation of the bucket as it stood after its population loop, and the truncation to
15 removes nothing: the trimmed bucket is the sorted bucket. -/
theorem C19_result_permutes_populated (E : Env) (hsort : SortSliceSpec E.sortSlice)
    (titles : List String) (favMovie : Movie) :
    ((finishBuckets E (populateBuckets E titles favMovie)).genre_based.Perm
        (populateBuckets E titles favMovie).genre_based ∧
      (finishBuckets E (populateBuckets E titles favMovie)).director_based.Perm
        (populateBuckets E titles favMovie).director_based ∧
      (finishBuckets E (populateBuckets E titles favMovie)).actor_based.Perm
        (populateBuckets E titles favMovie).actor_based) ∧
    (trim15 (sortByRating E (populateBuckets E titles favMovie).genre_based) =
        sortByRating E (populateBuckets E titles favMovie).genre_based ∧
      trim15 (sortByRating E (populateBuckets E titles favMovie).director_based) =
        sortByRating E (populateBuckets E titles favMovie).director_based ∧
      trim15 (sortByRating E (populateBuckets E titles favMovie).actor_based) =
        sortByRating E (populateBuckets E titles favMovie).actor_based) := by
  obtain ⟨h1, h2, h3⟩ := populateBuckets_length E titles favMovie
  have t1 : trim15 (sortByRating E (populateBuckets E titles favMovie).genre_based) =
      sortByRating E (populateBuckets E titles favMovie).genre_based :=
    trim15_of_le (by rw [(sortByRating_perm hsort _).length_eq]; exact h1)
  have t2 : trim15 (sortByRating E (populateBuckets E titles favMovie).director_based) =
      sortByRating E (populateBuckets E titles favMovie).director_based :=
    trim15_of_le (by rw [(sortByRating_perm hsort _).length_eq]; exact h2)
  have t3 : trim15 (sortByRating E (populateBuckets E titles favMovie).actor_based) =
      sortByRating E (populateBuckets E titles favMovie).actor_based :=
    trim15_of_le (by rw [(sortByRating_perm hsort _).length_eq]; exact h3)
  refine ⟨⟨?_, ?_, ?_⟩, t1, t2, t3⟩
  · show (trim15 _).Perm _
    rw [t1]
    exact sortByRating_perm hsort _
  · show (trim15 _).Perm _
    rw [t2]
    exact sortByRating_perm hsort _
  · show (trim15 _).Perm _
    rw [t3]
    exact sortByRating_perm hsort _

/-- C19 at the pool of the program, with three full buckets. -/
theorem C19_result_permutes_populated_witness :
    SortSliceSpec echoEnv.sortSlice ∧
    (((finishBuckets echoEnv (populateBuckets echoEnv getMoviePool echoFav)).genre_based.Perm
        (populateBuckets echoEnv getMoviePool echoFav).genre_based ∧
      (finishBuckets echoEnv (populateBuckets echoEnv getMoviePool echoFav)).director_based.Perm
        (populateBuckets echoEnv getMoviePool echoFav).director_based ∧
      (finishBuckets echoEnv (populateBuckets echoEnv getMoviePool echoFav)).actor_based.Perm
        (populateBuckets echoEnv getMoviePool echoFav).actor_based) ∧
    (trim15 (sortByRating echoEnv (populateBuckets echoEnv getMoviePool echoFav).genre_based) =
        sortByRating echoEnv (populateBuckets echoEnv getMoviePool echoFav).genre_based ∧
      trim15 (sortByRating echoEnv (populateBuckets echoEnv getMoviePool echoFav).director_based) =
        sortByRating echoEnv (populateBuckets echoEnv getMoviePool echoFav).director_based ∧
      trim15 (sortByRating echoEnv (populateBuckets echoEnv getMoviePool echoFav).actor_based) =
        sortByRating echoEnv (populateBuckets echoEnv getMoviePool echoFav).actor_based)) :=
  ⟨echoEnv_sort, C19_result_permutes_populated echoEnv echoEnv_sort getMoviePool echoFav⟩

/-- C14: every item of the genre bucket, after population and (when `sort.Slice` keeps
its contract) in the result, comes from a pool title that resolved to a record `m`, and
its reason is `Same genre: ` followed by the first of the reference genres, in the order
of the split on `, `, that the genre field of `m` contains, both lower-cased; no earlier
reference genre is contained. -/
theorem C14_genre_reason_first_match (E : Env) (hsort : SortSliceSpec E.sortSlice)
    (titles : List String) (favMovie : Movie) :
    (∀ r ∈ (populateBuckets E titles favMovie).genre_based,
      ∃ t ∈ titles, ∃ m g, fetchFromOMDb E ("t=" ++ E.queryEscape t) = .ok m ∧
        r = mkRecommendation m ("Same genre: " ++ g) ∧
        FirstMatchingGenre E (Split favMovie.Genre) m g) ∧
    (∀ r ∈ (finishBuckets E (populateBuckets E titles favMovie)).genre_based,
      ∃ t ∈ titles, ∃ m g, fetchFromOMDb E ("t=" ++ E.queryEscape t) = .ok m ∧
        r.Title = m.Title ∧ r.Reason = "Same genre: " ++ g ∧
        FirstMatchingGenre E (Split favMovie.Genre) m g) := by
  obtain ⟨g, d, a, heq, hg, _, _⟩ := populateBuckets_spec E titles favMovie
  have hpop : ∀ r ∈ (populateBuckets E titles favMovie).genre_based,
      ∃ t ∈ titles, ∃ m g, fetchFromOMDb E ("t=" ++ E.queryEscape t) = .ok m ∧
        r = mkRecommendation m ("Same genre: " ++ g) ∧
        FirstMatchingGenre E (Split favMovie.Genre) m g := by
    intro r hr
    rw [heq] at hr
    obtain ⟨t, ht, m, why, hf, _, _, hwhy, hrm⟩ := hg.origin r hr
    unfold genreReason at hwhy
    cases hfind : (Split favMovie.Genre).find?
        (fun g => Contains (ToLower E m.Genre) (ToLower E g)) with
    | none => rw [hfind] at hwhy; cases hwhy
    | some g0 =>
      rw [hfind] at hwhy
      cases hwhy
      obtain ⟨hp, before, after, hsplit, hbefore⟩ := List.find?_eq_some.1 hfind
      refine ⟨t, ht, m, g0, hf, hrm, before, after, hsplit, hp, ?_⟩
      intro g1 hg1
      simpa using hbefore g1 hg1
  refine ⟨hpop, ?_⟩
  intro r hr
  obtain ⟨t, ht, m, g0, hf, hrm, hfirst⟩ := hpop r (mem_of_mem_finish hsort hr)
  exact ⟨t, ht, m, g0, hf, by rw [hrm]; rfl, by rw [hrm]; rfl, hfirst⟩

/-- C14 at the pool of the program with the upstream of `knightEnv`, where the reference
genres are Action, Crime and Drama. -/
theorem C14_genre_reason_first_match_witness :
    SortSliceSpec knightEnv.sortSlice ∧
    ((∀ r ∈ (populateBuckets knightEnv getMoviePool darkKnight).genre_based,
      ∃ t ∈ getMoviePool, ∃ m g,
        fetchFromOMDb knightEnv ("t=" ++ knightEnv.queryEscape t) = .ok m ∧
        r = mkRecommendation m ("Same genre: " ++ g) ∧
        FirstMatchingGenre knightEnv (Split darkKnight.Genre) m g) ∧
    (∀ r ∈ (finishBuckets knightEnv (populateBuckets knightEnv getMoviePool darkKnight)).genre_based,
      ∃ t ∈ getMoviePool, ∃ m g,
        fetchFromOMDb knightEnv ("t=" ++ knightEnv.queryEscape t) = .ok m ∧
        r.Title = m.Title ∧ r.Reason = "Same genre: " ++ g ∧
        FirstMatchingGenre knightEnv (Split darkKnight.Genre) m g)) :=
  ⟨knightEnv_sort, C14_genre_reason_first_match knightEnv knightEnv_sort getMoviePool darkKnight⟩

/-! ## The genre top list -/

theorem genreMatch_eq_none (E : Env) (genre t : String) :
    genreMatch E genre t = none ↔
      ∀ m, fetchFromOMDb E ("t=" ++ E.queryEscape t) = .ok m →
        Contains (ToLower E m.Genre) (ToLower E genre) = false := by
  unfold genreMatch
  cases hf : fetchFromOMDb E ("t=" ++ E.queryEscape t) with
  | error e => simp
  | ok m =>
    by_cases hc : Contains (ToLower E m.Genre) (ToLower E genre) = true
    · simp [hc]
    · simp [hc]

theorem genreMatches_eq_nil (E : Env) (titles : List String) (genre : String) :
    genreMatches E titles genre = [] ↔ NoGenreMatch E titles genre := by
  unfold genreMatches NoGenreMatch
  rw [List.filterMap_eq_nil_iff]
  exact forall₂_congr (fun t _ => genreMatch_eq_none E genre t)

theorem genreMatch_isSome (E : Env) (genre t : String) :
    (genreMatch E genre t).isSome = isMatchingCandidate E genre t := by
  unfold genreMatch isMatchingCandidate
  cases hf : fetchFromOMDb E ("t=" ++ E.queryEscape t) with
  | error e => rfl
  | ok m =>
    by_cases hc : Contains (ToLower E m.Genre) (ToLower E genre) = true
    · simp [hc]
    · simp [hc]

theorem genreMatches_length (E : Env) (titles : List String) (genre : String) :
    (genreMatches E titles genre).length = matchingCount E titles genre := by
  unfold genreMatches matchingCount
  rw [List.length_filterMap_eq_countP, List.countP_eq_length_filter]
  congr 2
  funext t
  exact genreMatch_isSome E genre t

theorem genreMatches_origin (E : Env) (titles : List String) (genre : String)
    (r : Recommendation) (hr : r ∈ genreMatches E titles genre) :
    ∃ t ∈ titles, ∃ m, fetchFromOMDb E ("t=" ++ E.queryEscape t) = .ok m ∧
      Contains (ToLower E m.Genre) (ToLower E genre) = true ∧
      r = mkRecommendation m ("Genre match: " ++ genre) := by
  obtain ⟨t, ht, hm⟩ := List.mem_filterMap.1 hr
  refine ⟨t, ht, ?_⟩
  unfold genreMatch at hm
  cases hf : fetchFromOMDb E ("t=" ++ E.queryEscape t) with
  | error e => rw [hf] at hm; cases hm
  | ok m =>
    rw [hf] at hm
    by_cases hc : Contains (ToLower E m.Genre) (ToLower E genre) = true
    · simp only [hc, if_true, Option.some.injEq] at hm
      exact ⟨m, rfl, hc, hm.symm⟩
    · simp [hc] at hm

theorem trim15_eq_take (recs : List Recommendation) : trim15 recs = recs.take 15 := by
  unfold trim15
  split
  · rfl
  · rw [List.take_of_length_le (by omega)]

/-- The response of `genreTopWithPool` for a non-empty query. -/
theorem genreTopWithPool_cases (E : Env) (titles : List String) (genre : String)
    (hgenre : genre ≠ "") :
    (genreMatches E titles genre = [] ∧
      genreTopWithPool E titles genre =
        .httpError ("No movies found for genre " ++ genre) 404) ∨
    (genreMatches E titles genre ≠ [] ∧
      genreTopWithPool E titles genre =
        .json { genre := genre,
                movies := trim15 (sortByRating E (genreMatches E titles genre)) }) := by
  unfold genreTopWithPool
  rw [if_neg hgenre]
  by_cases h : genreMatches E titles genre = []
  · left
    exact ⟨h, by rw [if_pos (by rw [h]; rfl)]⟩
  · right
    exact ⟨h, by rw [if_neg (by simpa [List.length_eq_zero] using h)]⟩

theorem count_filterMap_eq_countP {α β : Type} [DecidableEq β] (f : α → Option β) (b : β) :
    ∀ l : List α, (l.filterMap f).count b = l.countP (fun a => f a == some b) := by
  intro l
  induction l with
  | nil => rfl
  | cons a l ih =>
    cases hfa : f a with
    | none =>
      rw [List.filterMap_cons_none hfa, ih, List.countP_cons_of_neg]
      simp [hfa]
    | some c =>
      rw [List.filterMap_cons_some hfa, List.count_cons, ih, List.countP_cons, hfa]
      by_cases hcb : c = b
      · simp [hcb]
      · simp [hcb]

theorem genreMatch_beq_some (E : Env) (genre : String) (r : Recommendation) (t : String) :
    (genreMatch E genre t == some r) = producesItem E genre r t := by
  unfold genreMatch producesItem
  cases hf : fetchFromOMDb E ("t=" ++ E.queryEscape t) with
  | error e => rfl
  | ok m =>
    by_cases hc : Contains (ToLower E m.Genre) (ToLower E genre) = true
    · by_cases hr : mkRecommendation m ("Genre match: " ++ genre) = r
      · simp [hc, hr]
      · simp [hc, hr]
    · simp [hc]

/-- The slice `matches` holds each item as often as the pool has matching candidates
that give it. -/
theorem genreMatches_count (E : Env) (titles : List String) (genre : String)
    (r : Recommendation) :
    (genreMatches E titles genre).count r = copiesInPool E titles genre r := by
  unfold genreMatches copiesInPool
  rw [count_filterMap_eq_countP]
  congr 1
  funext t
  exact genreMatch_beq_some E genre r t

theorem genreMatches_no_nan (E : Env) (titles : List String) (genre : String)
    (hnan : NoNaNMatch E titles genre) :
    ∀ r ∈ genreMatches E titles genre, rating E r ≠ F64.nan := by
  intro r hr
  obtain ⟨t, ht, m, hf, hc, hrm⟩ := genreMatches_origin E titles genre r hr
  rw [hrm]
  exact hnan t ht m hf hc

/-- The sorted and trimmed matches have the items of a top list. -/
theorem finish_topListItems {E : Env} (hsort : SortSliceSpec E.sortSlice)
    (titles : List String) (genre : String) :
    TopListItems E titles genre (trim15 (sortByRating E (genreMatches E titles genre))) := by
  have hperm := sortByRating_perm hsort (genreMatches E titles genre)
  refine ⟨?_, ?_, ?_⟩
  · rw [trim15_eq_take, List.length_take, hperm.length_eq, genreMatches_length]
  · intro r hr
    exact genreMatches_origin E titles genre r (mem_of_mem_finish hsort hr)
  · intro r
    rw [← genreMatches_count, ← hperm.count_eq r]
    exact (trim15_sublist _).count_le r

/-- The sorted and trimmed matches have the order of a top list, when no matching
candidate is rated NaN. -/
theorem finish_topListOrder {E : Env} (hsort : SortSliceSpec E.sortSlice)
    (titles : List String) (genre : String) (hnan : NoNaNMatch E titles genre) :
    TopListOrder E titles genre (trim15 (sortByRating E (genreMatches E titles genre))) := by
  have hnan2 := genreMatches_no_nan E titles genre hnan
  have hperm := sortByRating_perm hsort (genreMatches E titles genre)
  have hpw := (hsort (ratingLess E) (genreMatches E titles genre)).2
    (ratingLess_strictWeakOn E _ hnan2)
  refine ⟨finish_nonIncreasing hsort _ hnan2, ?_⟩
  intro r hlt k hk
  rw [trim15_eq_take] at hlt hk
  have hpw2 : ((sortByRating E (genreMatches E titles genre)).take 15 ++
      (sortByRating E (genreMatches E titles genre)).drop 15).Pairwise
      (fun a b => ratingLess E b a = false) := by
    rw [List.take_append_drop]
    exact hpw
  have hcount : ((sortByRating E (genreMatches E titles genre)).take 15).count r +
      ((sortByRating E (genreMatches E titles genre)).drop 15).count r =
      copiesInPool E titles genre r := by
    rw [← List.count_append, List.take_append_drop, hperm.count_eq r, genreMatches_count]
  have hdrop : r ∈ (sortByRating E (genreMatches E titles genre)).drop 15 :=
    List.count_pos_iff.1 (by omega)
  exact (List.pairwise_append.1 hpw2).2.2 k hk r hdrop

/-- A check of `NoNaNMatch` on the list of resolved records. -/
theorem noNaNMatch_of_resolved (E : Env) (titles : List String) (genre : String)
    (h : ∀ m ∈ resolvedRecords E titles,
      Contains (ToLower E m.Genre) (ToLower E genre) = true →
      parseRating E m.IMDBRating ≠ F64.nan) : NoNaNMatch E titles genre := by
  intro t ht m hf hc
  exact h m (List.mem_filterMap.2 ⟨t, ht, by rw [hf]⟩) hc

/-- C11: for a non-empty genre query, when `sort.Slice` keeps its contract,
`genreTopMoviesHandler` answers 404 with body `No movies found for genre ` followed by
the query exactly when no pool title resolves to a record whose genre field contains
the query, both lower-cased; otherwise it answers with a non-empty movies list. The same
holds for every pool. -/
theorem C11_no_match_iff_404 (E : Env) (hsort : SortSliceSpec E.sortSlice)
    (titles : List String) (genre : String) (hgenre : genre ≠ "") :
    (genreTopMoviesHandler E genre =
        HandlerResponse.httpError ("No movies found for genre " ++ genre) 404 ↔
      NoGenreMatch E getMoviePool genre) ∧
    (genreTopWithPool E titles genre =
        HandlerResponse.httpError ("No movies found for genre " ++ genre) 404 ↔
      NoGenreMatch E titles genre) ∧
    (¬ NoGenreMatch E titles genre →
      ∃ movies, genreTopWithPool E titles genre =
          HandlerResponse.json { genre := genre, movies := movies } ∧ movies ≠ []) := by
  have hiff : ∀ pool, (genreTopWithPool E pool genre =
        HandlerResponse.httpError ("No movies found for genre " ++ genre) 404 ↔
      NoGenreMatch E pool genre) := by
    intro pool
    rw [← genreMatches_eq_nil]
    rcases genreTopWithPool_cases E pool genre hgenre with ⟨hnil, hresp⟩ | ⟨hne, hresp⟩
    · exact ⟨fun _ => hnil, fun _ => hresp⟩
    · constructor
      · intro h
        rw [hresp] at h
        cases h
      · intro h
        exact absurd h hne
  refine ⟨hiff getMoviePool, hiff titles, ?_⟩
  intro hmatch
  rcases genreTopWithPool_cases E titles genre hgenre with ⟨hnil, _⟩ | ⟨hne, hresp⟩
  · exact absurd ((genreMatches_eq_nil E titles genre).1 hnil) hmatch
  · refine ⟨_, hresp, ?_⟩
    intro hempty
    have hlen := congrArg List.length hempty
    rw [trim15_eq_take, List.length_take, (sortByRating_perm hsort _).length_eq] at hlen
    have hpos : 0 < (genreMatches E titles genre).length := List.length_pos.2 hne
    simp only [List.length_nil] at hlen
    omega

/-- C11 for the query `crime` with the upstream of `knightEnv`. -/
theorem C11_no_match_iff_404_witness :
    SortSliceSpec knightEnv.sortSlice ∧ "crime" ≠ "" ∧
    ((genreTopMoviesHandler knightEnv "crime" =
        HandlerResponse.httpError ("No movies found for genre " ++ "crime") 404 ↔
      NoGenreMatch knightEnv getMoviePool "crime") ∧
    (genreTopWithPool knightEnv getMoviePool "crime" =
        HandlerResponse.httpError ("No movies found for genre " ++ "crime") 404 ↔
      NoGenreMatch knightEnv getMoviePool "crime") ∧
    (¬ NoGenreMatch knightEnv getMoviePool "crime" →
      ∃ movies, genreTopWithPool knightEnv getMoviePool "crime" =
          HandlerResponse.json { genre := "crime", movies := movies } ∧ movies ≠ [])) :=
  ⟨knightEnv_sort, by decide,
    C11_no_match_iff_404 knightEnv knightEnv_sort getMoviePool "crime" (by decide)⟩

/-- C12, as stated, fails: for the query `Drama` the upstream of `nanEnv` has three
matching candidates, the first rated `NaN`; the returned list has the item rated NaN
before the item rated 9.0, so it is not in non-increasing order of rating. -/
theorem C12_counterexample :
    SortSliceSpec nanEnv.sortSlice ∧
    matchingCount nanEnv getMoviePool "Drama" = 3 ∧
    genreTopMoviesHandler nanEnv "Drama" =
      HandlerResponse.json
        { genre := "Drama",
          movies :=
            [{ Title := "The Shawshank Redemption", Year := "", IMDBRating := "NaN",
               Plot := "", Reason := "Genre match: Drama" },
             { Title := "The Godfather", Year := "", IMDBRating := "9.0",
               Plot := "", Reason := "Genre match: Drama" },
             { Title := "Heat", Year := "", IMDBRating := "8.5",
               Plot := "", Reason := "Genre match: Drama" }] } ∧
    ¬ (genreTopMoviesHandler nanEnv "Drama").Satisfies (fun out =>
        NonIncreasing nanEnv out.movies) := by
  have h : genreTopMoviesHandler nanEnv "Drama" =
      HandlerResponse.json
        { genre := "Drama",
          movies :=
            [{ Title := "The Shawshank Redemption", Year := "", IMDBRating := "NaN",
               Plot := "", Reason := "Genre match: Drama" },
             { Title := "The Godfather", Year := "", IMDBRating := "9.0",
               Plot := "", Reason := "Genre match: Drama" },
             { Title := "Heat", Year := "", IMDBRating := "8.5",
               Plot := "", Reason := "Genre match: Drama" }] } := by
    decide!
  refine ⟨insertionSortBy_spec, by decide!, h, ?_⟩
  rw [h]
  simp only [HandlerResponse.Satisfies, NonIncreasing, List.chain'_cons,
    List.chain'_singleton, and_true]
  decide!

/-- C12, amended: for a non-empty genre query with `n` matching pool candidates, when
`sort.Slice` keeps its contract, the movies list of the response has exactly `min 15 n`
items and every item comes from a matching candidate, no oftener than the pool gives it;
and, when no matching candidate has a rating text that scans to NaN, the list is in
non-increasing order of numeric rating and no matching candidate left out is rated
strictly higher than a returned item. With `n` positive there is such a response. -/
theorem C12_top_list (E : Env) (hsort : SortSliceSpec E.sortSlice)
    (titles : List String) (genre : String) (hgenre : genre ≠ "") :
    (genreTopWithPool E titles genre).Satisfies (fun out =>
      TopListItems E titles genre out.movies ∧
      (NoNaNMatch E titles genre → TopListOrder E titles genre out.movies)) ∧
    (0 < matchingCount E titles genre →
      ∃ out, genreTopWithPool E titles genre = HandlerResponse.json out) := by
  rcases genreTopWithPool_cases E titles genre hgenre with ⟨hnil, hresp⟩ | ⟨_, hresp⟩
  · refine ⟨by rw [hresp]; trivial, ?_⟩
    intro hpos
    rw [← genreMatches_length, hnil] at hpos
    cases hpos
  · refine ⟨?_, fun _ => ⟨_, hresp⟩⟩
    rw [hresp]
    exact ⟨finish_topListItems hsort titles genre,
      fun hnan => finish_topListOrder hsort titles genre hnan⟩

/-- C12 amended, for the query `DRAMA` at the pool of the program with the upstream of
`echoEnv`, where all 104 pool titles match and none is rated NaN. -/
theorem C12_top_list_witness :
    SortSliceSpec echoEnv.sortSlice ∧ "DRAMA" ≠ "" ∧
    matchingCount echoEnv getMoviePool "DRAMA" = 104 ∧
    NoNaNMatch echoEnv getMoviePool "DRAMA" ∧
    ((genreTopWithPool echoEnv getMoviePool "DRAMA").Satisfies (fun out =>
      TopListItems echoEnv getMoviePool "DRAMA" out.movies ∧
      (NoNaNMatch echoEnv getMoviePool "DRAMA" →
        TopListOrder echoEnv getMoviePool "DRAMA" out.movies)) ∧
    (0 < matchingCount echoEnv getMoviePool "DRAMA" →
      ∃ out, genreTopWithPool echoEnv getMoviePool "DRAMA" = HandlerResponse.json out)) :=
  ⟨echoEnv_sort, by decide, by decide!,
    noNaNMatch_of_resolved echoEnv getMoviePool "DRAMA" (by decide!),
    C12_top_list echoEnv echoEnv_sort getMoviePool "DRAMA" (by decide)⟩

/-! ## The population loop as a filter in pool order -/

theorem resolvedRecords_cons_ok (E : Env) (t : String) (ts : List String) (m : Movie)
    (hf : fetchFromOMDb E ("t=" ++ E.queryEscape t) = .ok m) :
    resolvedRecords E (t :: ts) = m :: resolvedRecords E ts := by
  simp [resolvedRecords, List.filterMap_cons, hf]

theorem resolvedRecords_cons_error (E : Env) (t : String) (ts : List String) (e : String)
    (hf : fetchFromOMDb E ("t=" ++ E.queryEscape t) = .error e) :
    resolvedRecords E (t :: ts) = resolvedRecords E ts := by
  simp [resolvedRecords, List.filterMap_cons, hf]

/-- A population loop appends, in pool order, the items of the accepted records not
already seen, as long as the bucket holds fewer than 15. -/
theorem populate_eq_accepted (E : Env) (favMovie : Movie) (guard : Movie → Bool)
    (reason : Movie → Option String) (titles : List String) :
    ∀ (recs : List Recommendation) (seenAll : List String),
      (populate E favMovie guard reason titles (recs, seenAll)).1 =
        recs ++ ((firstOfEachTitle
          ((resolvedRecords E titles).filter (accepts E favMovie guard reason)) seenAll).take
            (15 - recs.length)).filterMap (itemOf reason) := by
  induction titles with
  | nil => intro recs seenAll; simp [populate, resolvedRecords, firstOfEachTitle]
  | cons t ts ih =>
    intro recs seenAll
    by_cases hlen : recs.length ≥ 15
    · have h0 : 15 - recs.length = 0 := by omega
      simp [populate, hlen, h0]
    · cases hf : fetchFromOMDb E ("t=" ++ E.queryEscape t) with
      | error e =>
        rw [resolvedRecords_cons_error E t ts e hf, ← ih recs seenAll]
        simp [populate, hlen, hf]
      | ok m =>
        rw [resolvedRecords_cons_ok E t ts m hf]
        by_cases hg : ((!EqualFold E m.Title favMovie.Title) && guard m) = true
        · by_cases hseen : m.Title ∈ seenAll
          · have hstep : populate E favMovie guard reason (t :: ts) (recs, seenAll) =
                populate E favMovie guard reason ts (recs, seenAll) := by
              simp [populate, hlen, hf, hg, hseen]
            have hspec : firstOfEachTitle
                ((m :: resolvedRecords E ts).filter (accepts E favMovie guard reason))
                seenAll =
                firstOfEachTitle
                  ((resolvedRecords E ts).filter (accepts E favMovie guard reason))
                  seenAll := by
              by_cases hacc : accepts E favMovie guard reason m = true
              · rw [List.filter_cons_of_pos hacc]
                simp [firstOfEachTitle, hseen]
              · rw [List.filter_cons_of_neg hacc]
            rw [hstep, hspec, ih recs seenAll]
          · cases hr : reason m with
            | none =>
              have hstep : populate E favMovie guard reason (t :: ts) (recs, seenAll) =
                  populate E favMovie guard reason ts (recs, seenAll) := by
                simp [populate, hlen, hf, hg, hseen, hr]
              have hacc : ¬ accepts E favMovie guard reason m = true := by
                simp [accepts, hr]
              rw [hstep, List.filter_cons_of_neg hacc, ih recs seenAll]
            | some why =>
              have hstep : populate E favMovie guard reason (t :: ts) (recs, seenAll) =
                  populate E favMovie guard reason ts
                    (recs ++ [mkRecommendation m why], m.Title :: seenAll) := by
                simp only [populate, hlen, hf, hg, hseen, hr, if_true, if_false]
              have hacc : accepts E favMovie guard reason m = true := by
                simp only [accepts, hg, hr, Option.isSome_some, Bool.and_self]
              have hk : 15 - recs.length = (15 - (recs ++ [mkRecommendation m why]).length) + 1 := by
                simp only [List.length_append, List.length_singleton]
                omega
              rw [hstep, List.filter_cons_of_pos hacc, ih, hk]
              simp [firstOfEachTitle, hseen, itemOf, hr]
        · have hstep : populate E favMovie guard reason (t :: ts) (recs, seenAll) =
              populate E favMovie guard reason ts (recs, seenAll) := by
            simp [populate, hlen, hf, hg]
          have hacc : ¬ accepts E favMovie guard reason m = true := by
            intro h
            simp only [accepts, Bool.and_eq_true] at h
            exact hg (by simp only [Bool.and_eq_true]; exact h.1)
          rw [hstep, List.filter_cons_of_neg hacc, ih recs seenAll]

theorem firstOfEachTitle_subset : ∀ (ms : List Movie) (seen : List String),
    ∀ m ∈ firstOfEachTitle ms seen, m ∈ ms := by
  intro ms
  induction ms with
  | nil => intro seen m hm; simp [firstOfEachTitle] at hm
  | cons x xs ih =>
    intro seen m hm
    unfold firstOfEachTitle at hm
    split at hm
    · exact List.mem_cons_of_mem _ (ih seen m hm)
    · rcases List.mem_cons.1 hm with rfl | hm
      · exact List.mem_cons_self _ _
      · exact List.mem_cons_of_mem _ (ih _ m hm)

/-- The records kept by `firstOfEachTitle` have pairwise distinct titles, none seen
before. -/
theorem firstOfEachTitle_nodup : ∀ (ms : List Movie) (seen : List String),
    ((firstOfEachTitle ms seen).map (fun m => m.Title)).Nodup ∧
      ∀ m ∈ firstOfEachTitle ms seen, m.Title ∉ seen := by
  intro ms
  induction ms with
  | nil => intro seen; simp [firstOfEachTitle]
  | cons x xs ih =>
    intro seen
    unfold firstOfEachTitle
    split
    · exact ih seen
    · next hx =>
      obtain ⟨hnd, hfresh⟩ := ih (x.Title :: seen)
      refine ⟨?_, ?_⟩
      · rw [List.map_cons, List.nodup_cons]
        refine ⟨?_, hnd⟩
        intro hmem
        obtain ⟨m, hm, hmt⟩ := List.mem_map.1 hmem
        exact hfresh m hm (by rw [hmt]; exact List.mem_cons_self _ _)
      · intro m hm
        rcases List.mem_cons.1 hm with rfl | hm
        · exact hx
        · exact fun hin => hfresh m hm (List.mem_cons_of_mem _ hin)

theorem genreReason_isSome_eq_any (E : Env) (favGenres : List String) (m : Movie) :
    (genreReason E favGenres m).isSome =
      favGenres.any (fun g => Contains (ToLower E m.Genre) (ToLower E g)) := by
  unfold genreReason
  rw [Option.isSome_map', Bool.eq_iff_iff]
  simp [List.find?_isSome]

/-- The genre bucket after population, as a list: the items of the first 15 of
`genreCandidatesInPoolOrder`. -/
theorem genre_bucket_eq (E : Env) (titles : List String) (favMovie : Movie) :
    (populateBuckets E titles favMovie).genre_based =
      ((genreCandidatesInPoolOrder E titles favMovie).take 15).filterMap
        (itemOf (genreReason E (Split favMovie.Genre))) := by
  have h := populate_eq_accepted E favMovie (fun _ => true)
    (genreReason E (Split favMovie.Genre)) titles [] []
  have hpred : accepts E favMovie (fun _ => true) (genreReason E (Split favMovie.Genre)) =
      (fun m => (!EqualFold E m.Title favMovie.Title) &&
        (Split favMovie.Genre).any (fun g => Contains (ToLower E m.Genre) (ToLower E g))) := by
    funext m
    simp only [accepts, Bool.and_true, genreReason_isSome_eq_any]
  rw [hpred] at h
  simpa [populateBuckets, genreLoop, genreCandidatesInPoolOrder] using h

theorem genreCandidates_reason (E : Env) (titles : List String) (favMovie : Movie)
    (m : Movie) (hm : m ∈ genreCandidatesInPoolOrder E titles favMovie) :
    ∃ g, genreReason E (Split favMovie.Genre) m = some ("Same genre: " ++ g) := by
  have hfil := firstOfEachTitle_subset _ _ m hm
  have hq := (List.mem_filter.1 hfil).2
  simp only [Bool.and_eq_true] at hq
  have hsome : (genreReason E (Split favMovie.Genre) m).isSome = true := by
    rw [genreReason_isSome_eq_any]
    exact hq.2
  unfold genreReason at hsome ⊢
  cases hfind : (Split favMovie.Genre).find?
      (fun g => Contains (ToLower E m.Genre) (ToLower E g)) with
  | none => rw [hfind] at hsome; cases hsome
  | some g => exact ⟨g, rfl⟩

theorem forall₂_filterMap_itemOf (reason : Movie → Option String) :
    ∀ L : List Movie, (∀ m ∈ L, ∃ g, reason m = some ("Same genre: " ++ g)) →
      List.Forall₂ (fun r m => ∃ g, r = mkRecommendation m ("Same genre: " ++ g))
        (L.filterMap (itemOf reason)) L := by
  intro L
  induction L with
  | nil => intro _; exact List.Forall₂.nil
  | cons x xs ih =>
    intro h
    obtain ⟨g, hg⟩ := h x (List.mem_cons_self _ _)
    have hitem : itemOf reason x = some (mkRecommendation x ("Same genre: " ++ g)) := by
      simp [itemOf, hg]
    rw [List.filterMap_cons_some hitem]
    exact List.Forall₂.cons ⟨g, rfl⟩ (ih (fun m hm => h m (List.mem_cons_of_mem _ hm)))

/-- No candidate past the fifteenth of `genreCandidatesInPoolOrder` has the title of an
item of the populated genre bucket. -/
theorem genre_bucket_excludes_later (E : Env) (titles : List String) (favMovie : Movie)
    (m : Movie) (hm : m ∈ (genreCandidatesInPoolOrder E titles favMovie).drop 15) :
    m.Title ∉ titlesOf (populateBuckets E titles favMovie).genre_based := by
  intro hmem
  obtain ⟨r, hr, hrt⟩ := List.mem_map.1 hmem
  rw [genre_bucket_eq] at hr
  obtain ⟨m0, hm0, hitem⟩ := List.mem_filterMap.1 hr
  have hr0 : r.Title = m0.Title := by
    unfold itemOf at hitem
    cases hreason : genreReason E (Split favMovie.Genre) m0 with
    | none => rw [hreason] at hitem; cases hitem
    | some why =>
      rw [hreason] at hitem
      cases hitem
      rfl
  have hnd := (firstOfEachTitle_nodup
    ((resolvedRecords E titles).filter (fun m =>
      (!EqualFold E m.Title favMovie.Title) &&
        (Split favMovie.Genre).any (fun g => Contains (ToLower E m.Genre) (ToLower E g))))
    []).1
  have hsplit : genreCandidatesInPoolOrder E titles favMovie =
      (genreCandidatesInPoolOrder E titles favMovie).take 15 ++
        (genreCandidatesInPoolOrder E titles favMovie).drop 15 :=
    (List.take_append_drop 15 _).symm
  change ((genreCandidatesInPoolOrder E titles favMovie).map (fun m => m.Title)).Nodup at hnd
  rw [hsplit, List.map_append] at hnd
  have hdisj := (List.nodup_append.1 hnd).2.2
  exact hdisj (List.mem_map.2 ⟨m0, hm0, rfl⟩)
    (List.mem_map.2 ⟨m, hm, by rw [← hrt, hr0]⟩)

/-- C15: before sorting, the genre bucket is, item by item and in pool order, the first
15 (or all, if fewer) of the pool candidates that resolve successfully, are not the
reference title, have a genre field containing some reference genre and are not already
seen; and a candidate of that sequence after the fifteenth has its title in no item of
the genre bucket, neither after population nor (when `sort.Slice` keeps its contract) in
the result. -/
theorem C15_genre_bucket_first_15_in_pool_order (E : Env)
    (hsort : SortSliceSpec E.sortSlice) (titles : List String) (favMovie : Movie) :
    List.Forall₂ (fun r m => ∃ g, r = mkRecommendation m ("Same genre: " ++ g))
      (populateBuckets E titles favMovie).genre_based
      ((genreCandidatesInPoolOrder E titles favMovie).take 15) ∧
    ∀ m ∈ (genreCandidatesInPoolOrder E titles favMovie).drop 15,
      m.Title ∉ titlesOf (populateBuckets E titles favMovie).genre_based ∧
      m.Title ∉ titlesOf (finishBuckets E (populateBuckets E titles favMovie)).genre_based := by
  refine ⟨?_, ?_⟩
  · rw [genre_bucket_eq]
    refine forall₂_filterMap_itemOf _ _ ?_
    intro m hm
    exact genreCandidates_reason E titles favMovie m (List.mem_of_mem_take hm)
  · intro m hm
    have hpop := genre_bucket_excludes_later E titles favMovie m hm
    refine ⟨hpop, ?_⟩
    intro hfin
    obtain ⟨r, hr, hrt⟩ := List.mem_map.1 hfin
    exact hpop (List.mem_map.2 ⟨r, mem_of_mem_finish hsort hr, hrt⟩)

/-- C15 at the pool of the program with the upstream of `echoEnv`, where all pool titles
but the reference qualify and the bucket takes the first 15. -/
theorem C15_genre_bucket_first_15_in_pool_order_witness :
    SortSliceSpec echoEnv.sortSlice ∧
    (genreCandidatesInPoolOrder echoEnv getMoviePool echoFav).length = 103 ∧
    (List.Forall₂ (fun r m => ∃ g, r = mkRecommendation m ("Same genre: " ++ g))
      (populateBuckets echoEnv getMoviePool echoFav).genre_based
      ((genreCandidatesInPoolOrder echoEnv getMoviePool echoFav).take 15) ∧
    ∀ m ∈ (genreCandidatesInPoolOrder echoEnv getMoviePool echoFav).drop 15,
      m.Title ∉ titlesOf (populateBuckets echoEnv getMoviePool echoFav).genre_based ∧
      m.Title ∉
        titlesOf (finishBuckets echoEnv (populateBuckets echoEnv getMoviePool echoFav)).genre_based) :=
  ⟨echoEnv_sort, by decide!,
    C15_genre_bucket_first_15_in_pool_order echoEnv echoEnv_sort getMoviePool echoFav⟩

end MovieApi
